import Mathlib

/-!
Verification development for the clinical-trials RAG pipeline
(`src/rag/document_processor.py`, `src/rag/text_processor.py`,
`src/rag/vector_store.py`, `src/rag/rag_manager.py`).

The Python code is shallowly embedded: dictionaries of heterogeneous
values become association lists over an inductive `PyVal`; code that can
raise becomes `Except PyErr`; the external vector store (ChromaDB) and
the recursive text splitter (langchain) are modelled from the spec where
indicated.
-/

set_option maxRecDepth 100000

namespace ClinicalRAG

/-- Shallow model of the Python values that flow through the pipeline:
`None`, strings, ints, bools, lists and string-keyed dicts. -/
inductive PyVal where
  | none : PyVal
  | str : String → PyVal
  | int : Int → PyVal
  | bool : Bool → PyVal
  | list : List PyVal → PyVal
  | dict : List (String × PyVal) → PyVal

mutual

/-- Structural equality on `PyVal`, the model of Python `==` on the
values occurring here (Python's `1 == True` numeric-coercion corner is
not modelled; no claim depends on it). -/
def pyBeq : PyVal → PyVal → Bool
  | PyVal.none, PyVal.none => true
  | PyVal.str a, PyVal.str b => a == b
  | PyVal.int a, PyVal.int b => a == b
  | PyVal.bool a, PyVal.bool b => a == b
  | PyVal.list xs, PyVal.list ys => pyBeqList xs ys
  | PyVal.dict xs, PyVal.dict ys => pyBeqDict xs ys
  | _, _ => false

/-- Elementwise equality of `PyVal` lists. -/
def pyBeqList : List PyVal → List PyVal → Bool
  | [], [] => true
  | x :: xs, y :: ys => pyBeq x y && pyBeqList xs ys
  | _, _ => false

/-- Entrywise equality of `PyVal` dicts. -/
def pyBeqDict : List (String × PyVal) → List (String × PyVal) → Bool
  | [], [] => true
  | (k, v) :: xs, (l, w) :: ys => k == l && pyBeq v w && pyBeqDict xs ys
  | _, _ => false

end

theorem pyBeq_sound : ∀ a b : PyVal, pyBeq a b = true → a = b := by
  apply pyBeq.induct
    (fun a b => pyBeq a b = true → a = b)
    (fun kvs lvs => pyBeqDict kvs lvs = true → kvs = lvs)
    (fun xs ys => pyBeqList xs ys = true → xs = ys)
  · intro _; rfl
  · intro a b h
    simp only [pyBeq, beq_iff_eq] at h
    exact h ▸ rfl
  · intro a b h
    simp only [pyBeq, beq_iff_eq] at h
    exact h ▸ rfl
  · intro a b h
    simp only [pyBeq, beq_iff_eq] at h
    exact h ▸ rfl
  · intro xs ys ih h
    simp only [pyBeq] at h
    exact (ih h) ▸ rfl
  · intro xs ys ih h
    simp only [pyBeq] at h
    exact (ih h) ▸ rfl
  · intro t x h1 h2 h3 h4 h5 h6 h
    cases t <;> cases x <;> simp only [pyBeq] at h <;> try exact Bool.noConfusion h
    · exact (h1 rfl rfl).elim
    · rename_i a b
      exact (h2 a b rfl rfl).elim
    · rename_i a b
      exact (h3 a b rfl rfl).elim
    · rename_i a b
      exact (h4 a b rfl rfl).elim
    · rename_i xs ys
      exact (h5 xs ys rfl rfl).elim
    · rename_i xs ys
      exact (h6 xs ys rfl rfl).elim
  · intro _; rfl
  · intro x xs y ys ih1 ih2 h
    simp only [pyBeqList, Bool.and_eq_true] at h
    rw [ih1 h.1, ih2 h.2]
  · intro t x h1 h2 h
    cases t with
    | nil =>
      cases x with
      | nil => rfl
      | cons y ys => exact Bool.noConfusion h
    | cons a as =>
      cases x with
      | nil => exact Bool.noConfusion h
      | cons y ys => exact (h2 a as y ys rfl rfl).elim
  · intro _; rfl
  · intro k v kvs l w lvs ih1 ih2 h
    simp only [pyBeqDict, Bool.and_eq_true, beq_iff_eq] at h
    rw [h.1.1, ih1 h.1.2, ih2 h.2]
  · intro t x h1 h2 h
    cases t with
    | nil =>
      cases x with
      | nil => rfl
      | cons y ys => exact Bool.noConfusion h
    | cons a as =>
      cases x with
      | nil => exact Bool.noConfusion h
      | cons y ys =>
        obtain ⟨k, v⟩ := a
        obtain ⟨l, w⟩ := y
        exact (h2 k v as l w ys rfl rfl).elim

theorem pyBeq_complete : ∀ a b : PyVal, a = b → pyBeq a b = true := by
  apply pyBeq.induct
    (fun a b => a = b → pyBeq a b = true)
    (fun kvs lvs => kvs = lvs → pyBeqDict kvs lvs = true)
    (fun xs ys => xs = ys → pyBeqList xs ys = true)
  · intro _; rfl
  · intro a b h
    injection h with h1
    subst h1
    simp [pyBeq]
  · intro a b h
    injection h with h1
    subst h1
    simp [pyBeq]
  · intro a b h
    injection h with h1
    subst h1
    simp [pyBeq]
  · intro xs ys ih h
    injection h with h1
    subst h1
    simp only [pyBeq]
    exact ih rfl
  · intro xs ys ih h
    injection h with h1
    subst h1
    simp only [pyBeq]
    exact ih rfl
  · intro t x h1 h2 h3 h4 h5 h6 h
    subst h
    cases t with
    | none => exact (h1 rfl rfl).elim
    | str s => exact (h2 s s rfl rfl).elim
    | int n => exact (h3 n n rfl rfl).elim
    | bool b => exact (h4 b b rfl rfl).elim
    | list xs => exact (h5 xs xs rfl rfl).elim
    | dict kvs => exact (h6 kvs kvs rfl rfl).elim
  · intro _; rfl
  · intro x xs y ys ih1 ih2 h
    injection h with h1 h2
    subst h1
    subst h2
    simp only [pyBeqList, Bool.and_eq_true]
    exact ⟨ih1 rfl, ih2 rfl⟩
  · intro t x h1 h2 h
    subst h
    cases t with
    | nil => exact (h1 rfl rfl).elim
    | cons a as => exact (h2 a as a as rfl rfl).elim
  · intro _; rfl
  · intro k v kvs l w lvs ih1 ih2 h
    injection h with h1 h2
    injection h1 with h3 h4
    subst h3
    subst h4
    subst h2
    simp only [pyBeqDict, Bool.and_eq_true, beq_self_eq_true, true_and]
    exact ⟨ih1 rfl, ih2 rfl⟩
  · intro t x h1 h2 h
    subst h
    cases t with
    | nil => exact (h1 rfl rfl).elim
    | cons kv kvs =>
      obtain ⟨k, v⟩ := kv
      exact (h2 k v kvs k v kvs rfl rfl).elim

instance : DecidableEq PyVal := fun a b =>
  if h : pyBeq a b = true then Decidable.isTrue (pyBeq_sound a b h)
  else Decidable.isFalse (fun he => h (pyBeq_complete a b he))

instance : BEq PyVal := ⟨pyBeq⟩

instance : LawfulBEq PyVal := by
  constructor
  · intro a b h
    exact pyBeq_sound a b h
  · intro a
    exact pyBeq_complete a a rfl

/-- Python exceptions are modelled by their message. -/
abbrev PyErr := String

/-- Model of a Python dict of trial fields (`trial_data`). -/
abbrev TrialData := List (String × PyVal)

/-- Model of `d.get(key)` (default `None` omitted): `Option` form, used to
state presence/absence of a metadata key. -/
def pyLookup (td : TrialData) (key : String) : Option PyVal :=
  td.lookup key

/-- Model of `d.get(key, default)` on a Python dict: the stored value if
the key is present (even when that value is `None`), else the default. -/
def pyGet (td : TrialData) (key : String) (dflt : PyVal) : PyVal :=
  match pyLookup td key with
  | Option.some v => v
  | Option.none => dflt

/-- Python truthiness of a value (`if v:`). -/
def pyTruthy : PyVal → Bool
  | PyVal.none => false
  | PyVal.str s => !(s == "")
  | PyVal.int n => !(n == 0)
  | PyVal.bool b => b
  | PyVal.list xs => !xs.isEmpty
  | PyVal.dict kvs => !kvs.isEmpty

mutual

/-- Model of Python `repr(v)` (which `str` delegates to for containers);
string escaping inside `repr` is not modelled. -/
def pyRepr : PyVal → String
  | PyVal.none => "None"
  | PyVal.str s => "\x27" ++ s ++ "\x27"
  | PyVal.int n => toString n
  | PyVal.bool b => if b then "True" else "False"
  | PyVal.list xs => "[" ++ pyReprList xs ++ "]"
  | PyVal.dict kvs => "\x7b" ++ pyReprDict kvs ++ "\x7d"

/-- Comma-separated `repr` of list elements. -/
def pyReprList : List PyVal → String
  | [] => ""
  | [x] => pyRepr x
  | x :: xs => pyRepr x ++ ", " ++ pyReprList xs

/-- Comma-separated `repr` of dict entries. -/
def pyReprDict : List (String × PyVal) → String
  | [] => ""
  | [(k, v)] => "\x27" ++ k ++ "\x27: " ++ pyRepr v
  | (k, v) :: kvs => "\x27" ++ k ++ "\x27: " ++ pyRepr v ++ ", " ++ pyReprDict kvs

end

/-- Model of Python `str(v)` as used by f-string interpolation: identity
on strings, `repr`-rendering otherwise. -/
def pyStr (v : PyVal) : String :=
  match v with
  | PyVal.str s => s
  | _ => pyRepr v

/-- Model of `sep.join(v)`: succeeds on a list of strings (and on a
string, whose characters are joined); raises `TypeError` on a
non-iterable value or on non-string elements, as Python does. -/
def pyJoin (sep : String) (v : PyVal) : Except PyErr String :=
  match v with
  | PyVal.list xs => do
      let strs ← xs.mapM (fun x =>
        match x with
        | PyVal.str s => Except.ok s
        | _ => Except.error "TypeError: sequence item: expected str instance")
      Except.ok (String.intercalate sep strs)
  | PyVal.str s =>
      Except.ok (String.intercalate sep (s.toList.map (fun c => String.singleton c)))
  | _ => Except.error "TypeError: can only join an iterable"

/-- Model of `len(v)`: defined on lists, strings and dicts; `TypeError`
otherwise (in particular on `None`). -/
def pyLen (v : PyVal) : Except PyErr Nat :=
  match v with
  | PyVal.list xs => Except.ok xs.length
  | PyVal.str s => Except.ok s.length
  | PyVal.dict kvs => Except.ok kvs.length
  | _ => Except.error "TypeError: object has no len"

/-- Model of `v[i]` for a nonnegative index: `IndexError` when out of
range, `TypeError` when the value is not indexable. -/
def pyIndex (v : PyVal) (i : Nat) : Except PyErr PyVal :=
  match v with
  | PyVal.list xs =>
      match xs.get? i with
      | Option.some x => Except.ok x
      | Option.none => Except.error "IndexError: list index out of range"
  | PyVal.str s =>
      match s.toList.get? i with
      | Option.some c => Except.ok (PyVal.str (String.singleton c))
      | Option.none => Except.error "IndexError: string index out of range"
  | _ => Except.error "TypeError: object is not subscriptable"

/-- Model of `v.get(key, default)` where `v` must be a dict
(`AttributeError` otherwise, as for `outcome.get` on a non-dict). -/
def pyDictGet (v : PyVal) (key : String) (dflt : PyVal) : Except PyErr PyVal :=
  match v with
  | PyVal.dict kvs =>
      Except.ok (match kvs.lookup key with
        | Option.some x => x
        | Option.none => dflt)
  | _ => Except.error "AttributeError: object has no attribute get"

/-- Model of Python `v or s` for a string fallback (as in
`period_title or "N/A"`). -/
def pyOr (v : PyVal) (s : String) : PyVal :=
  if pyTruthy v then v else PyVal.str s

/-- Model of `int(v)` as used for sort keys: ints pass through, strings
are parsed as an optionally signed decimal (surrounding whitespace
stripped), bools become 0/1; everything else fails (`TypeError` /
`ValueError`, both collapsing to `Option.none`). -/
def pyIntOf (v : PyVal) : Option Int :=
  match v with
  | PyVal.int n => Option.some n
  | PyVal.bool b => Option.some (if b then 1 else 0)
  | PyVal.str s =>
      let t := ((s.toList.dropWhile Char.isWhitespace).reverse.dropWhile
        Char.isWhitespace).reverse
      let core : List Char × Bool :=
        match t with
        | '-' :: rest => (rest, true)
        | '+' :: rest => (rest, false)
        | _ => (t, false)
      if core.1 ≠ [] ∧ core.1.all Char.isDigit then
        let n : Nat := core.1.foldl (fun acc c => acc * 10 + (c.toNat - '0'.toNat)) 0
        Option.some (if core.2 then -(n : Int) else (n : Int))
      else Option.none
  | _ => Option.none

example : pyIntOf (PyVal.str " 42 ") = Option.some 42 := by decide
example : pyIntOf (PyVal.str "-7") = Option.some (-7) := by decide
example : pyIntOf (PyVal.str "x1") = Option.none := by decide
example : pyIntOf PyVal.none = Option.none := by decide
example : pyJoin ", " (PyVal.list [PyVal.str "a", PyVal.str "b"]) = Except.ok "a, b" := rfl
example : (pyJoin ", " PyVal.none).isOk = false := rfl
example : pyRepr (PyVal.list [PyVal.int 3, PyVal.none]) = "[3, None]" := rfl
example : decide (PyVal.list [PyVal.str "a"] = PyVal.list [PyVal.str "a"]) = true := rfl

/-! ## TextProcessor.format_date (src/rag/text_processor.py, lines 70-80) -/

/-- Gregorian leap-year test, as in Python `datetime`. -/
def isLeapYear (y : Nat) : Bool :=
  (y % 4 == 0 && y % 100 != 0) || y % 400 == 0

/-- Number of days of month `m` in year `y`. -/
def daysInMonth (y m : Nat) : Nat :=
  if m = 2 then (if isLeapYear y then 29 else 28)
  else if m = 4 ∨ m = 6 ∨ m = 9 ∨ m = 11 then 30
  else 31

/-- Parse a nonempty all-digit character run of length at most `maxLen`. -/
def parseDigits (maxLen : Nat) (cs : List Char) : Option Nat :=
  if cs ≠ [] ∧ cs.length ≤ maxLen ∧ cs.all Char.isDigit then
    Option.some (cs.foldl (fun acc c => acc * 10 + (c.toNat - '0'.toNat)) 0)
  else Option.none

/-- Split a character list on the literal `-`. -/
def splitOnDash : List Char → List (List Char)
  | [] => [[]]
  | '-' :: rest => [] :: splitOnDash rest
  | c :: rest =>
      match splitOnDash rest with
      | g :: gs => (c :: g) :: gs
      | [] => [[c]]

/-- Model of `datetime.strptime(date_str, "%Y-%m-%d")`: three dash-separated
digit runs (up to 4/2/2 digits as the format directives allow), validated
to a real calendar date in `datetime`'s supported range. Returns the
`(year, month, day)` triple or fails. -/
def strptimeYmd (s : String) : Option (Nat × Nat × Nat) :=
  match splitOnDash s.toList with
  | [ys, ms, ds] =>
      match parseDigits 4 ys, parseDigits 2 ms, parseDigits 2 ds with
      | Option.some y, Option.some m, Option.some d =>
          if 1 ≤ y ∧ 1 ≤ m ∧ m ≤ 12 ∧ 1 ≤ d ∧ d ≤ daysInMonth y m then
            Option.some (y, m, d)
          else Option.none
      | _, _, _ => Option.none
  | _ => Option.none

/-- English month name used by `strftime("%B ...")`. -/
def monthName (m : Nat) : String :=
  match m with
  | 1 => "January" | 2 => "February" | 3 => "March" | 4 => "April"
  | 5 => "May" | 6 => "June" | 7 => "July" | 8 => "August"
  | 9 => "September" | 10 => "October" | 11 => "November" | _ => "December"

/-- Zero-pad a day number to two digits, as `strftime("%d")` does. -/
def pad2 (n : Nat) : String :=
  if n < 10 then "0" ++ toString n else toString n

/-- Model of `date_obj.strftime("%B %d, %Y")`. -/
def strftimeLong (y m d : Nat) : String :=
  monthName m ++ " " ++ pad2 d ++ ", " ++ toString y

/-- Embedding of `TextProcessor.format_date`: empty or `"N/A"` input maps
to `"N/A"`; otherwise the input is parsed as `%Y-%m-%d` and re-rendered
long-form, and returned unchanged when parsing fails. -/
def format_date (date_str : String) : String :=
  if date_str == "" || date_str == "N/A" then "N/A"
  else
    match strptimeYmd date_str with
    | Option.some (y, m, d) => strftimeLong y m d
    | Option.none => date_str

example : format_date "2024-03-05" = "March 05, 2024" := rfl
example : format_date "2024-02-30" = "2024-02-30" := rfl
example : format_date "" = "N/A" := rfl

/-! ## Text splitter (langchain `RecursiveCharacterTextSplitter`) -/

/-- Index just past the last occurrence of `c` in `cs`. -/
def lastIdxAfter (c : Char) (cs : List Char) : Option Nat :=
  match cs.reverse.findIdx? (fun x => x == c) with
  | Option.some j => Option.some (cs.length - j)
  | Option.none => Option.none

/-- Index just past the last occurrence of the two-character paragraph
break `"\n\n"` in `cs`. -/
def lastParaAfter (cs : List Char) : Option Nat :=
  match (cs.zip cs.tail).reverse.findIdx? (fun p => p.1 == '\n' && p.2 == '\n') with
  | Option.some j => Option.some (cs.length - 1 - j)
  | Option.none => Option.none

/-- Cut position within a window: prefer the last paragraph break, then
the last newline, then the last space; `Option.none` when no boundary
exists in the window. -/
def boundaryCut (window : List Char) : Option Nat :=
  match lastParaAfter window with
  | Option.some p => Option.some p
  | Option.none =>
      match lastIdxAfter '\n' window with
      | Option.some p => Option.some p
      | Option.none => lastIdxAfter ' ' window

/-- Modelled from the spec: the chunking step of langchain\x27s
`RecursiveCharacterTextSplitter` (external library, not part of this
repository). Per the spec (section 4.2) the rendered text is split with a
recursive boundary-seeking strategy with a target chunk size and a fixed
overlap between consecutive chunks, preferring to break at paragraph,
then sentence/newline, then word boundaries, falling back to a hard cut
when no boundary exists within the window. `fuel` is a structural bound
set to the text length by the wrapper. -/
def splitChunksAux (chunkSize overlap : Nat) : Nat → List Char → List (List Char)
  | _, [] => [[]]
  | 0, cs => [cs]
  | fuel + 1, cs =>
      if cs.length ≤ chunkSize then [cs]
      else
        let window := cs.take chunkSize
        let cut :=
          match boundaryCut window with
          | Option.some p => max p 1
          | Option.none => chunkSize
        let step := max (cut - overlap) 1
        cs.take cut :: splitChunksAux chunkSize overlap fuel (cs.drop step)

/-- Modelled from the spec: `text_splitter.split_text` with the
constructor arguments of `ClinicalTrialProcessor` (chunk size 1000,
overlap 200 — the values `RAGManager.__init__` passes). -/
def split_text (text : String) : List String :=
  (splitChunksAux 1000 200 text.length text.toList).map (fun cs => cs.asString)

theorem split_text_ne_nil (text : String) : split_text text ≠ [] := by
  have h : ∀ (fuel : Nat) (cs : List Char), splitChunksAux 1000 200 fuel cs ≠ [] := by
    intro fuel cs
    match fuel, cs with
    | _, [] => simp [splitChunksAux]
    | 0, c :: cs => simp [splitChunksAux]
    | fuel + 1, c :: cs =>
      simp only [splitChunksAux]
      split <;> simp
  simp only [split_text, Ne, List.map_eq_nil_iff]
  exact h _ _

/-! ## ClinicalTrialProcessor (src/rag/document_processor.py) -/

/-- The `"N/A"` placeholder value. -/
def NA : PyVal := PyVal.str "N/A"

/-- The `["N/A"]` default used for list-valued fields. -/
def defaultNAList : PyVal := PyVal.list [PyVal.str "N/A"]

/-- Model of Python iteration `for x in v`: lists yield their elements,
strings their characters, dicts their keys; other values raise
`TypeError`. -/
def pyIterate (v : PyVal) : Except PyErr (List PyVal) :=
  match v with
  | PyVal.list xs => Except.ok xs
  | PyVal.str s => Except.ok (s.toList.map (fun c => PyVal.str (String.singleton c)))
  | PyVal.dict kvs => Except.ok (kvs.map (fun kv => PyVal.str kv.1))
  | _ => Except.error "TypeError: object is not iterable"

/-- One block of `_format_interventions`: the three parallel-list lookups
at index `i` (each can raise `IndexError` on a shorter list, exactly as
the source indexes `trial_data.get(..., ["N/A"])[i]`). -/
def interventionBlock (td : TrialData) (i : Nat) : Except PyErr String := do
  let ty ← pyIndex (pyGet td "intervention_types" defaultNAList) i
  let nm ← pyIndex (pyGet td "intervention_names" defaultNAList) i
  let ds ← pyIndex (pyGet td "intervention_descriptions" defaultNAList) i
  Except.ok ("\n            Intervention " ++ toString (i + 1) ++ ":\n            - Type: "
    ++ pyStr ty ++ "\n            - Name: " ++ pyStr nm
    ++ "\n            - Description: " ++ pyStr ds ++ "\n            ")

/-- Embedding of `ClinicalTrialProcessor._format_interventions`: iterates
`range(len(trial_data.get("intervention_names", [])))` and renders one
block per index, joined by newlines, or `"N/A"` when there are none. -/
def format_interventions (td : TrialData) : Except PyErr String := do
  let n ← pyLen (pyGet td "intervention_names" (PyVal.list []))
  let blocks ← (List.range n).mapM (interventionBlock td)
  Except.ok (if blocks.isEmpty then "N/A" else String.intercalate "\n" blocks)

/-- One outcome block of `_format_outcomes` (`outcome.get(...)` raises
`AttributeError` on a non-dict element). -/
def outcomeBlock (v : PyVal) : Except PyErr String := do
  let m ← pyDictGet v "measure" NA
  let t ← pyDictGet v "timeFrame" NA
  let d ← pyDictGet v "description" NA
  Except.ok ("\n                - Measure: " ++ pyStr m ++ "\n                - Time Frame: "
    ++ pyStr t ++ "\n                - Description: " ++ pyStr d ++ "\n                ")

/-- One `if <outcomes>: ... for outcome in <outcomes>` section of
`_format_outcomes`: skipped when the value is falsy, otherwise a header
line plus one block per iterated element. -/
def outcomesSection (v : PyVal) (header : String) : Except PyErr (List String) :=
  if pyTruthy v then do
    let xs ← pyIterate v
    let blocks ← xs.mapM outcomeBlock
    Except.ok (header :: blocks)
  else Except.ok []

/-- Embedding of `ClinicalTrialProcessor._format_outcomes`. -/
def format_outcomes (td : TrialData) : Except PyErr String := do
  let part1 ← outcomesSection (pyGet td "primary_outcomes" (PyVal.list [])) "Primary Outcomes:"
  let part2 ←
    outcomesSection (pyGet td "secondary_outcomes" (PyVal.list [])) "\nSecondary Outcomes:"
  let omType := pyGet td "outcome_measure_type" PyVal.none
  let omTitle := pyGet td "outcome_measure_title" PyVal.none
  let omTimeFrame := pyGet td "outcome_measure_time_frame" PyVal.none
  let part3 :=
    if pyTruthy omType || pyTruthy omTitle || pyTruthy omTimeFrame then
      ["\nOutcome Measures Details:",
       "- Type: " ++ pyStr (pyOr omType "N/A"),
       "- Title: " ++ pyStr (pyOr omTitle "N/A"),
       "- Time Frame: " ++ pyStr (pyOr omTimeFrame "N/A")]
    else []
  let outcomes := part1 ++ part2 ++ part3
  Except.ok (if outcomes.isEmpty then "N/A" else String.intercalate "\n" outcomes)

/-- Embedding of `ClinicalTrialProcessor._format_participant_flow`
(total: uses only `get`, truthiness and rendering). -/
def format_participant_flow (td : TrialData) : String :=
  let pt := pyGet td "period_title" PyVal.none
  let mt := pyGet td "milestone_title" PyVal.none
  let mc := pyGet td "milestone_comment" PyVal.none
  let np := pyGet td "num_of_periods" PyVal.none
  if pyTruthy pt || pyTruthy mt || pyTruthy mc || pyTruthy np then
    String.intercalate "\n"
      ["Participant Flow Information:",
       "- Period Title: " ++ pyStr (pyOr pt "N/A"),
       "- Milestone Title: " ++ pyStr (pyOr mt "N/A"),
       "- Milestone Comment: " ++ pyStr (pyOr mc "N/A"),
       "- Number of Periods: " ++ pyStr (pyOr np "N/A")]
  else "N/A"

/-- Embedding of `ClinicalTrialProcessor._format_baseline_characteristics`. -/
def format_baseline_characteristics (td : TrialData) : String :=
  let pd := pyGet td "baseline_analysis_population_description" PyVal.none
  let at_ := pyGet td "arm_group_title" PyVal.none
  let ad := pyGet td "arm_group_description" PyVal.none
  let mt := pyGet td "baseline_measure_title" PyVal.none
  if pyTruthy pd || pyTruthy at_ || pyTruthy ad || pyTruthy mt then
    String.intercalate "\n"
      ["Baseline Characteristics:",
       "- Population Description: " ++ pyStr (pyOr pd "N/A"),
       "- Arm Group Title: " ++ pyStr (pyOr at_ "N/A"),
       "- Arm Group Description: " ++ pyStr (pyOr ad "N/A"),
       "- Measure Title: " ++ pyStr (pyOr mt "N/A")]
  else "N/A"

/-- Embedding of `ClinicalTrialProcessor._format_adverse_events`. -/
def format_adverse_events (td : TrialData) : String :=
  let agt := pyGet td "adverse_events_arm_group_title" PyVal.none
  let sna := pyGet td "num_affected_by_serious_adverse_event" PyVal.none
  let snr := pyGet td "num_at_risk_for_serious_adverse_event" PyVal.none
  let ona := pyGet td "num_affected_by_other_adverse_event" PyVal.none
  let onr := pyGet td "num_at_risk_for_other_adverse_event" PyVal.none
  if pyTruthy agt || pyTruthy sna || pyTruthy snr || pyTruthy ona || pyTruthy onr then
    String.intercalate "\n"
      ["Adverse Events Information:",
       "- Arm Group Title: " ++ pyStr (pyOr agt "N/A"),
       "- Serious Events: " ++ pyStr (pyOr sna "N/A") ++ " affected out of "
         ++ pyStr (pyOr snr "N/A") ++ " at risk",
       "- Other Events: " ++ pyStr (pyOr ona "N/A") ++ " affected out of "
         ++ pyStr (pyOr onr "N/A") ++ " at risk"]
  else "N/A"

/-- Scalar field rendered as `{trial_data.get(key, "N/A")}`. -/
def fld (td : TrialData) (key : String) : String :=
  pyStr (pyGet td key NA)

/-- The `", ".join(trial_data.get("study_phase", ["N/A"]))` expression,
shared between the trial text and each chunk metadata entry. -/
def phaseJoin (td : TrialData) : Except PyErr String :=
  pyJoin ", " (pyGet td "study_phase" defaultNAList)

/-- Embedding of the `trial_text` f-string of
`ClinicalTrialProcessor.process_trial`; the fallible interpolations
(`join`s and `_format_*` helpers) are evaluated in source order, so the
first raising expression determines the exception. Interior whitespace of
the triple-quoted literal is reproduced approximately (no claim depends
on exact spacing). -/
def trialText (td : TrialData) : Except PyErr String := do
  let phase ← phaseJoin td
  let collab ← pyJoin ", " (pyGet td "collaborators" defaultNAList)
  let conds ← pyJoin ", " (pyGet td "conditions" defaultNAList)
  let interv ← format_interventions td
  let outc ← format_outcomes td
  let fac ← pyJoin ", " (pyGet td "facility" defaultNAList)
  Except.ok (
    "\n        Title: " ++ fld td "title"
    ++ "\n        Official Title: " ++ fld td "official_title"
    ++ "\n        NCT ID: " ++ fld td "nct_id"
    ++ "\n        Organization: " ++ fld td "organization_full_name"
    ++ "\n\n        Status Information:"
    ++ "\n        - Current Status: " ++ fld td "status"
    ++ "\n        - Start Date: " ++ fld td "start_date"
    ++ "\n        - Completion Date: " ++ fld td "completion_date"
    ++ "\n        - Last Update: " ++ fld td "last_update"
    ++ "\n        - Why Stopped: " ++ fld td "why_stopped"
    ++ "\n\n        Study Information:"
    ++ "\n        - Study Type: " ++ fld td "study_type"
    ++ "\n        - Study Phase: " ++ phase
    ++ "\n        - Design Allocation: " ++ fld td "design_allocation"
    ++ "\n        - Intervention Model: " ++ fld td "intervention_study_design"
    ++ "\n        - Primary Purpose: " ++ fld td "design_primary_purpose"
    ++ "\n        - Time Perspective: " ++ fld td "design_time_perspective"
    ++ "\n        - Enrollment: " ++ fld td "enrollment"
    ++ "\n\n        Sponsor Information:"
    ++ "\n        - Lead Sponsor: " ++ fld td "sponsor"
    ++ "\n        - Collaborators: " ++ collab
    ++ "\n\n        Oversight Information:"
    ++ "\n        - Has DMC: " ++ fld td "has_dmc"
    ++ "\n        - FDA Regulated Drug: " ++ fld td "is_fda_regulated_drug"
    ++ "\n        - FDA Regulated Device: " ++ fld td "is_fda_regulated_device"
    ++ "\n        - Unapproved Device: " ++ fld td "is_unapproved_device"
    ++ "\n        - PPSD: " ++ fld td "is_ppsd"
    ++ "\n        - US Export: " ++ fld td "is_us_export"
    ++ "\n\n        Description:\n        Brief Summary:\n        " ++ fld td "brief_summary"
    ++ "\n\n        Detailed Description:\n        " ++ fld td "detailed_description"
    ++ "\n\n        Conditions:\n        " ++ conds
    ++ "\n\n        Interventions:\n        " ++ interv
    ++ "\n\n        Outcomes:\n        " ++ outc
    ++ "\n\n        Participant Flow:\n        " ++ format_participant_flow td
    ++ "\n\n        Baseline Characteristics:\n        " ++ format_baseline_characteristics td
    ++ "\n\n        Adverse Events:\n        " ++ format_adverse_events td
    ++ "\n\n        Eligibility:\n        Criteria:\n        " ++ fld td "eligibility_criteria"
    ++ "\n\n        Additional Eligibility Information:"
    ++ "\n        - Gender: " ++ fld td "eligibility_gender"
    ++ "\n        - Age: " ++ fld td "eligibility_age"
    ++ "\n        - Healthy Volunteers: " ++ fld td "eligibility_healthy_volunteers"
    ++ "\n        - Healthy Volunteers Description: "
      ++ fld td "eligibility_healthy_volunteers_description"
    ++ "\n\n        Facilities:\n        " ++ fac
    ++ "\n        ")

/-- Metadata dict built for chunk `i` in `process_trial` (the
`study_phase` join is re-evaluated per chunk, as in the source). -/
def chunkMetadata (td : TrialData) (i : Nat) : Except PyErr (List (String × PyVal)) := do
  let phase ← phaseJoin td
  Except.ok
    [("nct_id", pyGet td "nct_id" NA),
     ("title", pyGet td "title" NA),
     ("chunk_id", PyVal.int i),
     ("status", pyGet td "status" NA),
     ("phase", PyVal.str phase),
     ("study_type", pyGet td "study_type" NA),
     ("organization", pyGet td "organization_full_name" NA),
     ("sponsor", pyGet td "sponsor" NA),
     ("last_update", pyGet td "last_update" NA)]

/-- A langchain `Document`: page content plus metadata. -/
structure Doc where
  page_content : String
  metadata : List (String × PyVal)
deriving DecidableEq

/-- The loop body of `process_trial` (lines 95-110): one `Document` per
`(index, chunk)` pair. -/
def buildDoc (td : TrialData) (ic : Nat × String) : Except PyErr Doc := do
  let md ← chunkMetadata td ic.1
  Except.ok (Doc.mk ic.2 md)

/-- Embedding of `ClinicalTrialProcessor.process_trial`: render the trial
text, split it into chunks, and build one `Document` per chunk with
provenance metadata. -/
def process_trial (td : TrialData) : Except PyErr (List Doc) := do
  let text ← trialText td
  let chunks := split_text text
  let documents ← chunks.enum.mapM (buildDoc td)
  Except.ok documents

example : (process_trial []).isOk = true := by decide
example : (process_trial [("intervention_names",
    PyVal.list [PyVal.str "a", PyVal.str "b"])]).isOk = false := by decide
example : (process_trial [("conditions", PyVal.none)]).isOk = false := by decide

/-! ## VectorStoreManager (src/rag/vector_store.py) -/

/-- One record of the external ChromaDB collection: assigned id, page
content, cleaned metadata. -/
structure StoredEntry where
  id : String
  content : String
  metadata : List (String × PyVal)
deriving DecidableEq

/-- Metadata-value cleaning of `add_documents` (lines 38-44): `None`
becomes the string `"N/A"`, scalars pass through, anything else is
stringified. -/
def cleanVal (v : PyVal) : PyVal :=
  match v with
  | PyVal.none => PyVal.str "N/A"
  | PyVal.str s => PyVal.str s
  | PyVal.int n => PyVal.int n
  | PyVal.bool b => PyVal.bool b
  | v => PyVal.str (pyStr v)

/-- Entrywise metadata cleaning. -/
def cleanMetadata (md : List (String × PyVal)) : List (String × PyVal) :=
  md.map (fun kv => (kv.1, cleanVal kv.2))

/-- Decimal digit character for `d < 10`. -/
def digitCh (d : Nat) : Char :=
  Char.ofNat (48 + d)

/-- Big-endian decimal digits of `n` (`fuel`-structured; `fuel = n`
suffices since the value shrinks by a factor of ten per step). -/
def natDecimalAux : Nat → Nat → List Char
  | 0, _ => []
  | fuel + 1, n => if n = 0 then [] else natDecimalAux fuel (n / 10) ++ [digitCh (n % 10)]

/-- Model of Python `str(i)` for a nonnegative integer: standard decimal
rendering. -/
def natDecimal (n : Nat) : String :=
  if n = 0 then "0" else (natDecimalAux n n).asString

example : natDecimal 0 = "0" := rfl
example : natDecimal 5001 = "5001" := rfl

/-- The id assigned to the `i`-th document of an `add_documents` call
(line 30): `f"doc_{i}_{datetime.now().strftime("%Y%m%d_%H%M%S")}"`. The
timestamp has second resolution; `ts` is the formatted timestamp of the
call (always 15 characters in the source format). -/
def mkDocId (i : Nat) (ts : String) : String :=
  "doc_" ++ natDecimal i ++ "_" ++ ts

/-- The id list of one `add_documents` call over `n` documents. -/
def assignIds (n : Nat) (ts : String) : List String :=
  (List.range n).map (fun i => mkDocId i ts)

/-- The batching loop of `add_documents` (lines 49-62). The whole loop
runs inside a single `try`; `fail b` models the external
`collection.add` call of the `b`-th batch raising. A failing batch
therefore leaves the previously written batches in place and abandons
the loop (the remaining batches are never attempted); the exception is
logged by the `except` clause. -/
def addBatches (fail : Nat → Bool) :
    List StoredEntry → List StoredEntry → Nat → List StoredEntry
  | col, [], _ => col
  | col, item :: rest, b =>
      if fail b then col
      else addBatches fail (col ++ (item :: rest).take 5000) ((item :: rest).drop 5000) (b + 1)
termination_by _ items _ => items.length
decreasing_by simp; omega

/-- The entries prepared by `add_documents` before batching: the id list
zipped with the documents, metadata cleaned (lines 29-47). -/
def prepareEntries (docs : List Doc) (ts : String) : List StoredEntry :=
  ((assignIds docs.length ts).zip docs).map
    (fun p => StoredEntry.mk p.1 p.2.page_content (cleanMetadata p.2.metadata))

/-- Embedding of `VectorStoreManager.add_documents`: assign ids, clean
metadata, and write in batches of 5000 to the collection `col`. -/
def add_documents (fail : Nat → Bool) (col : List StoredEntry) (docs : List Doc)
    (ts : String) : List StoredEntry :=
  addBatches fail col (prepareEntries docs ts) 0

/-- Conjunctive exact-equality metadata filter (the `where` clause built
from `filter_criteria`, lines 75-80; ChromaDB `$eq` does not match a
document missing the key). -/
def matchesCriteria (filter : Option (List (String × PyVal))) (d : Doc) : Bool :=
  match filter with
  | Option.none => true
  | Option.some crit => crit.all (fun kv => pyLookup d.metadata kv.1 == Option.some kv.2)

/-- Modelled from the spec: ChromaDB `collection.query` behind
`VectorStoreManager.similarity_search` (external service, not part of
this repository). Per the spec (section 4.3) it returns the `k` nearest
neighbors by the store distance metric, narrowed by the exact-equality
metadata filter. The store list is taken ordered by nearness for the
query being asked — every search within one `get_response` call uses the
same query string, hence the same order — so the model returns the first
`k` documents satisfying the filter. The `query` argument only selects
the ranking and is otherwise unused. -/
def similarity_search (store : List Doc) (query : String) (k : Nat)
    (filter : Option (List (String × PyVal))) : List Doc :=
  (store.filter (matchesCriteria filter)).take k

/-! ## RAGManager (src/rag/rag_manager.py) -/

/-- The sort key of `_get_documents_for_nct_id` (line 121):
`int(doc.metadata.get("chunk_index", 0))`; `Option.none` when `int()`
raises. -/
def chunkIndexKey (d : Doc) : Option Int :=
  pyIntOf (pyGet d.metadata "chunk_index" (PyVal.int 0))

/-- The sort of `_get_documents_for_nct_id` (lines 119-124): Python
computes all keys first, so a `ValueError`/`TypeError` from `int()` on
any document reaches the `except` before any reordering and the original
order is kept; otherwise the list is sorted stably by the integer key
(Python's stable sort is modelled by stable insertion sort). -/
def sortByChunkIndex (docs : List Doc) : List Doc :=
  match docs.mapM chunkIndexKey with
  | Option.none => docs
  | Option.some _ =>
      docs.insertionSort (fun a b => (chunkIndexKey a).getD 0 ≤ (chunkIndexKey b).getD 0)

/-- The candidate documents of `_get_documents_for_nct_id` (lines
96-117): a filtered similarity search capped at 50, falling back to an
unfiltered search whose hits are kept only when their `nct_id` metadata
equals the target (`doc.metadata.get("nct_id") == nct_id`). -/
def nctCandidates (store : List Doc) (query : String) (nct_id : PyVal) : List Doc :=
  if (similarity_search store query 50 (Option.some [("nct_id", nct_id)])).isEmpty then
    (similarity_search store query 50 Option.none).filter
      (fun d => pyGet d.metadata "nct_id" PyVal.none == nct_id)
  else similarity_search store query 50 (Option.some [("nct_id", nct_id)])

/-- Embedding of `RAGManager._get_documents_for_nct_id`: the candidate
set, the early `return []` when it is empty, then the chunk-index sort.
`nct_id` is a `PyVal` because the general path feeds metadata values
through this function unchanged. -/
def getDocumentsForNctId (store : List Doc) (query : String) (nct_id : PyVal) : List Doc :=
  if (nctCandidates store query nct_id).isEmpty then []
  else sortByChunkIndex (nctCandidates store query nct_id)

/-- The `unique_nct_ids` extraction of `_get_documents_for_query` (lines
137-141): truthy `nct_id` metadata values of the discovery hits. The
Python `set` iterates in an implementation-defined order; the model
fixes one deduplication order (no claim depends on the order, and the
final sort reorders the result anyway). -/
def extractNctIds (docs : List Doc) : List PyVal :=
  (docs.filterMap (fun d =>
    let v := pyGet d.metadata "nct_id" PyVal.none
    if pyTruthy v then Option.some v else Option.none)).dedup

/-- The two-component sort key of `_get_documents_for_query` (lines
150-154): `(metadata.get("nct_id", ""), int(metadata.get("chunk_index",
0)))`. `Option.none` when `int()` raises, and also when the first
component is not a string — in CPython comparing a non-string first
component against a string raises `TypeError` mid-sort, leaving an
unspecified partial order that the `except` then keeps; the model
approximates that unspecified order by the original order (every claim
proved below is order-insensitive for that corner). -/
def nctChunkKey (d : Doc) : Option (String × Int) :=
  match pyGet d.metadata "nct_id" (PyVal.str ""),
      pyIntOf (pyGet d.metadata "chunk_index" (PyVal.int 0)) with
  | PyVal.str s, Option.some n => Option.some (s, n)
  | _, _ => Option.none

/-- Lexicographic order on character lists by code point, the model of
Python string comparison. -/
def charListLt : List Char → List Char → Bool
  | [], [] => false
  | [], _ :: _ => true
  | _ :: _, [] => false
  | a :: as, b :: bs =>
      if a.toNat < b.toNat then true
      else if b.toNat < a.toNat then false
      else charListLt as bs

/-- Python `s1 < s2` on strings. -/
def strLt (a b : String) : Bool :=
  charListLt a.toList b.toList

/-- The final sort of `_get_documents_for_query`: stable sort by
`(nct_id, chunk_index)` when all keys are computable, original order
otherwise. -/
def sortByNctChunk (docs : List Doc) : List Doc :=
  match docs.mapM nctChunkKey with
  | Option.none => docs
  | Option.some _ =>
      docs.insertionSort (fun a b =>
        let ka := (nctChunkKey a).getD ("", 0)
        let kb := (nctChunkKey b).getD ("", 0)
        strLt ka.1 kb.1 = true ∨ (ka.1 = kb.1 ∧ ka.2 ≤ kb.2))

/-- Embedding of `RAGManager._get_documents_for_query`: a discovery
search with `k = 5`, extraction of the distinct trial identifiers among
the hits, one complete per-trial fetch for each identifier, and the
final two-component sort. Returns `[]` exactly when the discovery search
returns nothing. -/
def getDocumentsForQuery (store : List Doc) (query : String) : List Doc :=
  if (similarity_search store query 5 Option.none).isEmpty then []
  else
    sortByNctChunk
      ((extractNctIds (similarity_search store query 5 Option.none)).flatMap
        (fun v => getDocumentsForNctId store query v))

/-- Attempts to read `NCT` followed by exactly eight digits at the head
of the character list, returning the match and the remaining characters
after it. -/
def nctAt (cs : List Char) : Option (String × List Char) :=
  match cs with
  | 'N' :: 'C' :: 'T' :: rest =>
      let ds := rest.take 8
      if ds.length = 8 ∧ ds.all Char.isDigit then
        Option.some ("NCT" ++ ds.asString, rest.drop 8)
      else Option.none
  | _ => Option.none

/-- Left-to-right non-overlapping scan for the pattern, as `re.findall`
does; `fuel` is a structural bound set to the text length. -/
def findallNctAux : Nat → List Char → List String
  | 0, _ => []
  | _, [] => []
  | fuel + 1, c :: rest =>
      match nctAt (c :: rest) with
      | Option.some (m, after) => m :: findallNctAux fuel after
      | Option.none => findallNctAux fuel rest

/-- Embedding of `re.findall(r"NCT\x5cd\x7b8\x7d", query.upper())` from
`RAGManager.get_response` (lines 210-211). -/
def findNct (query : String) : List String :=
  let cs := query.toList.map Char.toUpper
  findallNctAux cs.length cs

example : findNct "what is nct00000001 about" = ["NCT00000001"] := by decide
example : findNct "NCT123 and NCT000000019" = ["NCT00000001"] := by decide
example : findNct "no identifier here" = [] := by decide

/-- Tests whether `needle` occurs as a contiguous sublist of `hay`. -/
def containsSubAux (needle : List Char) : List Char → Bool
  | [] => needle.isEmpty
  | c :: rest => List.isPrefixOf needle (c :: rest) || containsSubAux needle rest

/-- Substring containment, the model of Python `needle in hay`. -/
def containsSub (needle hay : String) : Bool :=
  containsSubAux needle.toList hay.toList

/-- Model of `query.lower()`. -/
def lowerStr (s : String) : String :=
  (s.toList.map Char.toLower).asString

/-- Embedding of `PromptTemplates.get_general_query_prompt`. -/
def generalQueryPrompt (query context : String) : String :=
  "You are a helpful assistant specialized in analyzing clinical trials. Use the following context to answer the user\x27s question. \n        If the information is not available in the context, say so. Be concise but informative.\n\n        Context:\n        "
    ++ context ++ "\n\n        User\x27s question: " ++ query
    ++ "\n\n        Please provide a clear and accurate response based on the clinical trial information provided."

/-- Embedding of `PromptTemplates.get_summary_prompt`. -/
def summaryPrompt (query context : String) : String :=
  "You are a helpful assistant specialized in summarizing clinical trials. Create a concise summary of the following clinical trial information, \n        focusing on the key aspects relevant to the user\x27s request. Be clear and organized in your summary.\n\n        Context:\n        "
    ++ context ++ "\n\n        User\x27s request: " ++ query
    ++ "\n\n        Please provide a well-structured summary that captures the essential information."

/-- Embedding of `PromptTemplates.get_detailed_summary_prompt`. -/
def detailedSummaryPrompt (query context : String) : String :=
  "You are a helpful assistant specialized in providing detailed summaries of clinical trials. Create a comprehensive summary of the following \n        clinical trial information, covering all important aspects while maintaining clarity and organization. Include specific details, numbers, and outcomes \n        where available.\n\n        Context:\n        "
    ++ context ++ "\n\n        User\x27s request: " ++ query
    ++ "\n\n        Please provide a thorough and well-structured summary that includes all relevant details."

/-- Embedding of `PromptTemplates.get_outcome_prompt`. -/
def outcomePrompt (query context : String) : String :=
  "You are a helpful assistant specialized in analyzing clinical trial outcomes. Review the following clinical trial information and provide \n        a clear explanation of the study outcomes, including primary and secondary endpoints, results, and their significance.\n\n        Context:\n        "
    ++ context ++ "\n\n        User\x27s question: " ++ query
    ++ "\n\n        Please provide a detailed analysis of the trial outcomes, including any statistical significance and clinical relevance."

/-- Embedding of `PromptTemplates.get_trial_discovery_prompt` (the long
formatting instructions between the lead sentence and the context are
reproduced in abbreviated form; no claim observes the prompt text). -/
def trialDiscoveryPrompt (query context : String) : String :=
  "You are a helpful assistant specialized in finding relevant clinical trials. Based on the user\x27s request, \n        identify and present the most relevant clinical trials from the provided context Make sure to not duplicate trials and if there are no relevant trials, say so.\n\n        Context:\n        "
    ++ context ++ "\n\n        User\x27s request: " ++ query
    ++ "\n\n        Please provide a well-organized list of relevant clinical trials."

/-- Embedding of `RAGManager._select_prompt_template` (lines 161-183):
keyword dispatch over the lower-cased query, checked in source order
(outcome, then discovery, then summary with a detailed refinement, then
the general fallback); `keyword in query_lower` is substring search. -/
def select_prompt_template (query context : String) : String :=
  let ql := lowerStr query
  if ["outcome", "results", "outcome measure", "outcomes", "measures"].any
      (fun kw => containsSub kw ql) then
    outcomePrompt query context
  else if ["show me", "find", "list", "related to", "about", "for"].any
      (fun kw => containsSub kw ql) then
    trialDiscoveryPrompt query context
  else if ["summarize", "summary", "summarise", "brief", "overview", "sum up"].any
      (fun kw => containsSub kw ql) then
    if ["detailed", "comprehensive", "complete", "full"].any (fun kw => containsSub kw ql) then
      detailedSummaryPrompt query context
    else
      summaryPrompt query context
  else
    generalQueryPrompt query context

/-- Embedding of the verification prompt of `RAGManager._verify_response`
(lines 187-197). -/
def verificationPrompt (context response : String) : String :=
  "Verify if the following response contains ONLY information from the provided context. \n        If the response contains any made-up or hallucinated information, return \"HALLUCINATION_DETECTED\".\n        If the response only contains information from the context, return \"VERIFIED\".\n\n        Context:\n        "
    ++ context ++ "\n\n        Response to verify:\n        " ++ response
    ++ "\n\n        Verification result:"

/-- Embedding of `RAGManager._verify_response`. The oracle
`llm n prompt query` is the text returned by the `n`-th
`generate_response` call of the enclosing `get_response` invocation (the
external model capability is a pure oracle over the call index and its
arguments); `k` is the index of the next call, and the second component
of the result counts the calls made so far. When the verification text
contains `HALLUCINATION_DETECTED`, the source evaluates `prompt + "..."`
(line 202) — but no name `prompt` (nor `query`) is bound in the scope of
`_verify_response`, so Python raises `NameError` before any regeneration
call is made. -/
def verify_response (llm : Nat → String → String → String) (k : Nat)
    (response context : String) : Except PyErr String × Nat :=
  let verification := llm k (verificationPrompt context response) ""
  if containsSub "HALLUCINATION_DETECTED" verification then
    (Except.error "NameError: name \x27prompt\x27 is not defined", k + 1)
  else (Except.ok response, k + 1)

/-- The process-wide usage counters seeded by `RAGManager.__init__`. -/
structure UsageStats where
  total_queries : Nat
  total_tokens : ℚ
  queries_by_model : List (String × Nat)
  last_reset : String
deriving DecidableEq

/-- Word count of `text.split()` (maximal non-whitespace runs). -/
def wordCountAux : Bool → List Char → Nat
  | _, [] => 0
  | inWord, c :: rest =>
      if c.isWhitespace then wordCountAux false rest
      else (if inWord then 0 else 1) + wordCountAux true rest

/-- Embedding of `OllamaProvider.count_tokens`:
`len(text.split()) * 1.3`. The Python float arithmetic is modelled by
the exact rational `13/10`; no claim observes the value beyond
(non-)mutation of the counters. -/
def count_tokens (s : String) : ℚ :=
  (wordCountAux false s.toList : ℚ) * (13 / 10)

/-- Increment of `usage_stats["queries_by_model"][model_name]`. The key
is always present in stats produced by `__init__`/`reset_usage_stats`
(a missing key would raise `KeyError` in the source; unreachable here),
so the model increments the first matching entry and leaves a keyless
list unchanged. -/
def bumpModel : List (String × Nat) → String → List (String × Nat)
  | [], _ => []
  | (k, n) :: rest, model =>
      if k == model then (k, n + 1) :: rest else (k, n) :: bumpModel rest model

/-- The answer-producing tail of `RAGManager.get_response` (lines
227-246), reached when retrieval produced documents: assemble the
context, select the prompt, generate, verify, and update the usage
stats. Result: the returned string, the final stats, and the number of
`generate_response` calls made. An exception from `_verify_response`
reaches the outer `except` (lines 248-250), which returns the generic
apology and never updates the stats. -/
def respond (llm : Nat → String → String → String) (model_name : String)
    (stats : UsageStats) (query : String) (relevant_docs : List Doc) :
    String × UsageStats × Nat :=
  let context := String.intercalate "\n\n" (relevant_docs.map (fun d => d.page_content))
  let prompt := select_prompt_template query context
  let response := llm 0 prompt query
  match verify_response llm 1 response context with
  | (Except.error _, k) =>
      ("I apologize, but I encountered an error while processing your query. Please try again.",
       stats, k)
  | (Except.ok resp, k) =>
      let input_tokens := count_tokens prompt + count_tokens query
      let output_tokens := count_tokens resp
      (resp,
       UsageStats.mk (stats.total_queries + 1)
         (stats.total_tokens + (input_tokens + output_tokens))
         (bumpModel stats.queries_by_model model_name)
         stats.last_reset,
       k)

/-- Embedding of `RAGManager.get_response`: the identifier short-circuit
on the first `NCT\x5cd\x7b8\x7d` match, the general path otherwise, the
two "couldn\x27t find" early returns, and the answer tail. The third
component counts the `generate_response` calls made. -/
def get_response (llm : Nat → String → String → String) (store : List Doc)
    (model_name : String) (stats : UsageStats) (query : String) :
    String × UsageStats × Nat :=
  match findNct query with
  | nct_id :: _ =>
      let relevant_docs := getDocumentsForNctId store query (PyVal.str nct_id)
      if relevant_docs.isEmpty then
        ("I couldn\x27t find any clinical trial with " ++ nct_id ++ ".", stats, 0)
      else respond llm model_name stats query relevant_docs
  | [] =>
      let relevant_docs := getDocumentsForQuery store query
      if relevant_docs.isEmpty then
        ("I couldn\x27t find any relevant clinical trials for your query.", stats, 0)
      else respond llm model_name stats query relevant_docs

/-! ## Helper lemmas -/

theorem except_isOk_iff {ε α : Type} (e : Except ε α) :
    e.isOk = true ↔ ∃ b, e = Except.ok b := by
  cases e <;> simp [Except.isOk, Except.toBool]

theorem mapM_ok_map {α β : Type} (f : α → Except PyErr β) (g : α → β) :
    ∀ l : List α, (∀ a ∈ l, f a = Except.ok (g a)) → l.mapM f = Except.ok (l.map g) := by
  intro l
  induction l with
  | nil => intro _; rfl
  | cons a l ih =>
      intro h
      rw [List.mapM_cons, h a (by simp), ih (fun a ha => h a (by simp [ha]))]
      rfl

theorem mapM_ok_exists {α β : Type} (f : α → Except PyErr β) :
    ∀ l : List α, (∀ a ∈ l, (f a).isOk = true) → ∃ bs, l.mapM f = Except.ok bs := by
  intro l
  induction l with
  | nil => exact fun _ => ⟨[], rfl⟩
  | cons a l ih =>
      intro h
      obtain ⟨b, hb⟩ := (except_isOk_iff (f a)).1 (h a (by simp))
      obtain ⟨bs, hbs⟩ := ih (fun a ha => h a (by simp [ha]))
      refine ⟨b :: bs, ?_⟩
      rw [List.mapM_cons, hb, hbs]
      rfl

theorem mapM_error_of_mem {α β : Type} (f : α → Except PyErr β) (l : List α) (a : α)
    (ha : a ∈ l) (he : ∀ b, f a ≠ Except.ok b) : ∀ bs, l.mapM f ≠ Except.ok bs := by
  intro bs h
  induction l generalizing bs with
  | nil => cases ha
  | cons x l ih =>
      rw [List.mapM_cons] at h
      cases hx : f x with
      | error e => rw [hx] at h; exact Except.noConfusion h
      | ok b =>
          rw [hx] at h
          cases ha with
          | head => exact he b hx
          | tail _ ha' =>
              cases hl : l.mapM f with
              | error e => rw [hl] at h; exact Except.noConfusion h
              | ok bs' => exact ih ha' bs' hl

/-! ## C8: format_date totality -/

/-- Claim C8 counterexample: the claim says a parse failure — including
the empty string — returns the input unchanged, but `format_date ""`
returns `"N/A"`, not `""` (line 72-73 short-circuits `""` and `"N/A"` to
`"N/A"`). -/
theorem format_date_empty_counterexample :
    format_date "" = "N/A" ∧ ("N/A" : String) ≠ "" := by
  constructor
  · rfl
  · decide

/-- Claim C8 (amended): for inputs other than `""` and `"N/A"`,
`format_date` re-renders a parsed `%Y-%m-%d` date long-form and returns
the input unchanged when parsing fails; it never raises (it is a total
function); the inputs `""` and `"N/A"` are mapped to `"N/A"`. -/
theorem format_date_amended (s : String) (h1 : s ≠ "") (h2 : s ≠ "N/A") :
    (∀ y m d, strptimeYmd s = Option.some (y, m, d) → format_date s = strftimeLong y m d) ∧
    (strptimeYmd s = Option.none → format_date s = s) := by
  have hcond : (s == "" || s == "N/A") = false := by
    simp [h1, h2]
  constructor
  · intro y m d hp
    simp [format_date, hcond, hp]
  · intro hp
    simp [format_date, hcond, hp]

/-- Witness for C8: a concrete parse success and a concrete parse
failure. -/
theorem format_date_amended_witness :
    format_date "2024-03-05" = strftimeLong 2024 3 5 ∧ format_date "hello" = "hello" :=
  ⟨(format_date_amended "2024-03-05" (by decide) (by decide)).1 2024 3 5 (by decide),
   (format_date_amended "hello" (by decide) (by decide)).2 (by decide)⟩

/-! ## C1: chunk/metadata invariants of process_trial -/

/-- The metadata list `chunkMetadata td i` evaluates to when the
`study_phase` join yields `p`. -/
def mdList (td : TrialData) (p : String) (i : Nat) : List (String × PyVal) :=
  [("nct_id", pyGet td "nct_id" NA),
   ("title", pyGet td "title" NA),
   ("chunk_id", PyVal.int i),
   ("status", pyGet td "status" NA),
   ("phase", PyVal.str p),
   ("study_type", pyGet td "study_type" NA),
   ("organization", pyGet td "organization_full_name" NA),
   ("sponsor", pyGet td "sponsor" NA),
   ("last_update", pyGet td "last_update" NA)]

theorem chunkMetadata_ok {td : TrialData} {p : String}
    (hp : phaseJoin td = Except.ok p) (i : Nat) :
    chunkMetadata td i = Except.ok (mdList td p i) := by
  simp [chunkMetadata, hp, mdList, Bind.bind, Except.bind]

theorem trialText_ok_phase {td : TrialData} {text : String}
    (h : trialText td = Except.ok text) : ∃ p, phaseJoin td = Except.ok p := by
  cases hp : phaseJoin td with
  | ok p => exact ⟨p, rfl⟩
  | error e =>
      rw [trialText, hp] at h
      simp [Bind.bind, Except.bind] at h

theorem buildDoc_ok {td : TrialData} {p : String}
    (hp : phaseJoin td = Except.ok p) (ic : Nat × String) :
    buildDoc td ic = Except.ok (Doc.mk ic.2 (mdList td p ic.1)) := by
  rw [buildDoc, chunkMetadata_ok hp]
  rfl

theorem process_trial_ok_elim {td : TrialData} {docs : List Doc}
    (h : process_trial td = Except.ok docs) :
    ∃ text p, trialText td = Except.ok text ∧ phaseJoin td = Except.ok p ∧
      docs = (split_text text).enum.map (fun ic => Doc.mk ic.2 (mdList td p ic.1)) := by
  cases ht : trialText td with
  | error e =>
      rw [process_trial, ht] at h
      simp [Bind.bind, Except.bind] at h
  | ok text =>
      obtain ⟨p, hp⟩ := trialText_ok_phase ht
      have hmap := mapM_ok_map (buildDoc td)
        (fun ic => Doc.mk ic.2 (mdList td p ic.1))
        (split_text text).enum (fun ic _ => buildDoc_ok hp ic)
      rw [process_trial, ht] at h
      simp only [Bind.bind, Except.bind, hmap] at h
      injection h with h2
      exact ⟨text, p, rfl, hp, h2.symm⟩

/-- Claim C1 (amended): whenever `process_trial` succeeds it produces at
least one Document; every produced Document carries metadata key
`nct_id` (the record value, defaulting to `"N/A"`, possibly the empty
string) and metadata key `chunk_id` equal to its position, so
`0 ≤ chunk_id < number of documents`. The keys the claim names —
`chunk_index` and `total_chunks` — are not emitted (see the
counterexample), and `process_trial` can raise on malformed list fields
(claim C5), so success is a hypothesis here. -/
theorem process_trial_chunk_invariants (td : TrialData) (docs : List Doc)
    (h : process_trial td = Except.ok docs) :
    docs ≠ [] ∧ ∀ i, (hi : i < docs.length) →
      pyLookup (docs.get ⟨i, hi⟩).metadata "nct_id" = Option.some (pyGet td "nct_id" NA) ∧
      pyLookup (docs.get ⟨i, hi⟩).metadata "chunk_id" = Option.some (PyVal.int i) := by
  obtain ⟨text, p, _, _, hdocs⟩ := process_trial_ok_elim h
  subst hdocs
  constructor
  · intro hnil
    apply split_text_ne_nil text
    have hlen := congrArg List.length hnil
    simp only [List.length_map, List.enum_length, List.length_nil] at hlen
    exact List.length_eq_zero.1 hlen
  · intro i hi
    have hlen : i < (split_text text).enum.length := by
      simpa using hi
    have hget : ((split_text text).enum.map
        (fun ic => Doc.mk ic.2 (mdList td p ic.1))).get ⟨i, hi⟩
        = Doc.mk ((split_text text).get ⟨i, by simpa using hlen⟩) (mdList td p i) := by
      rw [List.get_eq_getElem, List.getElem_map, List.getElem_enum]
      rfl
    rw [hget]
    constructor
    · simp [pyLookup, mdList, List.lookup]
    · simp [pyLookup, mdList, List.lookup]

/-- Claim C1 counterexample: at the record `{nct_id: ""}` the produced
documents carry neither a `chunk_index` nor a `total_chunks` metadata
key, and the `nct_id` metadata value is the empty string — refuting both
the claimed keys and the claimed non-emptiness. -/
theorem process_trial_metadata_counterexample :
    (process_trial [("nct_id", PyVal.str "")]).isOk = true ∧
    ((process_trial [("nct_id", PyVal.str "")]).toOption.getD []).length ≥ 1 ∧
    (((process_trial [("nct_id", PyVal.str "")]).toOption.getD []).map
      (fun d => pyLookup d.metadata "chunk_index")).all Option.isNone = true ∧
    (((process_trial [("nct_id", PyVal.str "")]).toOption.getD []).map
      (fun d => pyLookup d.metadata "total_chunks")).all Option.isNone = true ∧
    (((process_trial [("nct_id", PyVal.str "")]).toOption.getD []).map
      (fun d => pyLookup d.metadata "nct_id")).all
      (fun v => v == Option.some (PyVal.str "")) = true := by
  refine ⟨?_, ?_, ?_, ?_, ?_⟩ <;> decide

/-- Witness for C1: the empty record is processed successfully, and the
first produced document carries the `"N/A"` identifier default and chunk
id `0`. -/
theorem process_trial_chunk_invariants_witness :
    (process_trial []).toOption.getD [] ≠ [] :=
  (process_trial_chunk_invariants [] ((process_trial []).toOption.getD []) (by rfl)).1

/-! ## C5: malformed-record tolerance of process_trial -/

/-- Tests for a string value. -/
def isStrVal : PyVal → Bool
  | PyVal.str _ => true
  | _ => false

/-- Tests for a dict value. -/
def isDictVal : PyVal → Bool
  | PyVal.dict _ => true
  | _ => false

/-- A value `", ".join(...)` accepts: a string, or a list of strings. -/
def strListOk (v : PyVal) : Bool :=
  match v with
  | PyVal.str _ => true
  | PyVal.list xs => xs.all isStrVal
  | _ => false

/-- A joined list field is absent or join-compatible. -/
def fieldOk (td : TrialData) (key : String) : Bool :=
  match pyLookup td key with
  | Option.none => true
  | Option.some v => strListOk v

/-- An outcomes value `_format_outcomes` accepts: absent, `None` (falsy,
skipped) or a list of dicts. -/
def outcomesOkVal (v : PyVal) : Bool :=
  match v with
  | PyVal.none => true
  | PyVal.list xs => xs.all isDictVal
  | _ => false

/-- An outcomes field is absent or acceptable. -/
def outcomesOk (td : TrialData) (key : String) : Bool :=
  match pyLookup td key with
  | Option.none => true
  | Option.some v => outcomesOkVal v

/-- The intervention lists are absent or long enough for the parallel
indexing of `_format_interventions` (an absent `intervention_types` /
`intervention_descriptions` defaults to the one-element `["N/A"]`, so it
only supports at most one name). -/
def interOk (td : TrialData) : Bool :=
  match pyLookup td "intervention_names" with
  | Option.none => true
  | Option.some (PyVal.list xs) =>
      (match pyLookup td "intervention_types" with
        | Option.none => decide (xs.length ≤ 1)
        | Option.some (PyVal.list ts) => decide (xs.length ≤ ts.length)
        | Option.some _ => false) &&
      (match pyLookup td "intervention_descriptions" with
        | Option.none => decide (xs.length ≤ 1)
        | Option.some (PyVal.list ds) => decide (xs.length ≤ ds.length)
        | Option.some _ => false)
  | Option.some _ => false

/-- A sufficient well-formedness condition on a trial record under which
`process_trial` cannot raise. A record missing any or all fields is
well-formed (every clause accepts an absent key). -/
def wellFormedRecord (td : TrialData) : Bool :=
  fieldOk td "study_phase" && fieldOk td "collaborators" && fieldOk td "conditions" &&
  fieldOk td "facility" && interOk td && outcomesOk td "primary_outcomes" &&
  outcomesOk td "secondary_outcomes"

theorem pyJoin_ok_of_strListOk (sep : String) (v : PyVal) (h : strListOk v = true) :
    (pyJoin sep v).isOk = true := by
  cases v with
  | str s => rfl
  | list xs =>
      simp only [strListOk, List.all_eq_true] at h
      obtain ⟨ss, hss⟩ := mapM_ok_exists
        (fun x => match x with
          | PyVal.str s => Except.ok s
          | _ => Except.error "TypeError: sequence item: expected str instance") xs
        (by
          intro a ha
          have := h a ha
          cases a <;> simp_all [isStrVal] <;> rfl)
      simp only [pyJoin, Bind.bind, Except.bind, hss, Except.isOk, Except.toBool]
  | none => simp [strListOk] at h
  | int n => simp [strListOk] at h
  | bool b => simp [strListOk] at h
  | dict kvs => simp [strListOk] at h

theorem fieldJoin_ok (td : TrialData) (key : String) (h : fieldOk td key = true) :
    (pyJoin ", " (pyGet td key defaultNAList)).isOk = true := by
  rw [fieldOk] at h
  rw [pyGet]
  cases hk : pyLookup td key with
  | none => rfl
  | some v =>
      rw [hk] at h
      exact pyJoin_ok_of_strListOk ", " v h

theorem interventionBlock_ok (td : TrialData) (xs : List PyVal) (i : Nat)
    (hn : pyLookup td "intervention_names" = Option.some (PyVal.list xs))
    (hi : i < xs.length)
    (ht : match pyLookup td "intervention_types" with
      | Option.none => xs.length ≤ 1
      | Option.some (PyVal.list ts) => xs.length ≤ ts.length
      | Option.some _ => False)
    (hd : match pyLookup td "intervention_descriptions" with
      | Option.none => xs.length ≤ 1
      | Option.some (PyVal.list ds) => xs.length ≤ ds.length
      | Option.some _ => False) :
    (interventionBlock td i).isOk = true := by
  have hidx : ∀ (key : String),
      (match pyLookup td key with
        | Option.none => xs.length ≤ 1
        | Option.some (PyVal.list ts) => xs.length ≤ ts.length
        | Option.some _ => False) →
      (pyIndex (pyGet td key defaultNAList) i).isOk = true := by
    intro key hk
    rw [pyGet]
    cases hl : pyLookup td key with
    | none =>
        rw [hl] at hk
        have : i = 0 := by omega
        subst this
        rfl
    | some v =>
        rw [hl] at hk
        cases v with
        | list ts =>
            have hlt : i < ts.length := by omega
            simp [pyIndex, List.get?_eq_getElem?, List.getElem?_eq_getElem hlt,
              Except.isOk, Except.toBool]
        | none => exact absurd hk (by simp)
        | str s => exact absurd hk (by simp)
        | int n => exact absurd hk (by simp)
        | bool b => exact absurd hk (by simp)
        | dict kvs => exact absurd hk (by simp)
  have h1 := hidx "intervention_types" ht
  have h2 : (pyIndex (pyGet td "intervention_names" defaultNAList) i).isOk = true := by
    rw [pyGet, hn]
    simp [pyIndex, List.get?_eq_getElem?, List.getElem?_eq_getElem hi,
      Except.isOk, Except.toBool]
  have h3 := hidx "intervention_descriptions" hd
  obtain ⟨ty, hty⟩ := (except_isOk_iff _).1 h1
  obtain ⟨nm, hnm⟩ := (except_isOk_iff _).1 h2
  obtain ⟨ds, hds⟩ := (except_isOk_iff _).1 h3
  simp [interventionBlock, hty, hnm, hds, Bind.bind, Except.bind,
    Except.isOk, Except.toBool]

theorem format_interventions_ok (td : TrialData) (h : interOk td = true) :
    (format_interventions td).isOk = true := by
  rw [interOk] at h
  cases hn : pyLookup td "intervention_names" with
  | none =>
      rw [format_interventions, pyGet, hn]
      rfl
  | some v =>
      rw [hn] at h
      cases v with
      | list xs =>
          simp only [Bool.and_eq_true, decide_eq_true_eq] at h
          have hblocks : ∀ i ∈ List.range xs.length,
              (interventionBlock td i).isOk = true := by
            intro i hi
            rw [List.mem_range] at hi
            refine interventionBlock_ok td xs i hn hi ?_ ?_
            · rcases h with ⟨h1, _⟩
              cases hl : pyLookup td "intervention_types" with
              | none =>
                  rw [hl] at h1
                  exact of_decide_eq_true h1
              | some w =>
                  rw [hl] at h1
                  cases w <;> simp_all
            · rcases h with ⟨_, h2⟩
              cases hl : pyLookup td "intervention_descriptions" with
              | none =>
                  rw [hl] at h2
                  exact of_decide_eq_true h2
              | some w =>
                  rw [hl] at h2
                  cases w <;> simp_all
          obtain ⟨blocks, hbl⟩ := mapM_ok_exists (interventionBlock td)
            (List.range xs.length) hblocks
          rw [format_interventions, pyGet, hn]
          simp only [pyLen, Bind.bind, Except.bind, hbl, Except.isOk, Except.toBool]
      | none => simp at h
      | str s => simp at h
      | int n => simp at h
      | bool b => simp at h
      | dict kvs => simp at h

theorem outcomeBlock_ok (v : PyVal) (h : isDictVal v = true) :
    (outcomeBlock v).isOk = true := by
  cases v <;> simp_all [isDictVal]
  rfl

theorem outcomesSection_ok (v : PyVal) (header : String) (h : outcomesOkVal v = true) :
    (outcomesSection v header).isOk = true := by
  cases v with
  | none => rfl
  | list xs =>
      simp only [outcomesOkVal, List.all_eq_true] at h
      obtain ⟨blocks, hbl⟩ := mapM_ok_exists outcomeBlock xs
        (fun a ha => outcomeBlock_ok a (h a ha))
      rw [outcomesSection]
      by_cases ht : pyTruthy (PyVal.list xs) = true
      · rw [if_pos ht]
        simp only [pyIterate, Bind.bind, Except.bind, hbl]
        rfl
      · rw [if_neg ht]
        rfl
  | str s => simp [outcomesOkVal] at h
  | int n => simp [outcomesOkVal] at h
  | bool b => simp [outcomesOkVal] at h
  | dict kvs => simp [outcomesOkVal] at h

theorem format_outcomes_ok (td : TrialData)
    (h1 : outcomesOk td "primary_outcomes" = true)
    (h2 : outcomesOk td "secondary_outcomes" = true) :
    (format_outcomes td).isOk = true := by
  have g : ∀ (key : String) (header : String), outcomesOk td key = true →
      (outcomesSection (pyGet td key (PyVal.list [])) header).isOk = true := by
    intro key header hk
    rw [outcomesOk] at hk
    rw [pyGet]
    cases hl : pyLookup td key with
    | none => rfl
    | some v =>
        rw [hl] at hk
        exact outcomesSection_ok v header hk
  obtain ⟨p1, hp1⟩ := (except_isOk_iff _).1 (g "primary_outcomes" "Primary Outcomes:" h1)
  obtain ⟨p2, hp2⟩ := (except_isOk_iff _).1
    (g "secondary_outcomes" "\nSecondary Outcomes:" h2)
  simp [format_outcomes, hp1, hp2, Bind.bind, Except.bind, Except.isOk, Except.toBool]

theorem trialText_ok_of_wellformed (td : TrialData) (h : wellFormedRecord td = true) :
    (trialText td).isOk = true := by
  rw [wellFormedRecord] at h
  simp only [Bool.and_eq_true] at h
  obtain ⟨⟨⟨⟨⟨⟨hsp, hco⟩, hcd⟩, hfa⟩, hin⟩, hp1⟩, hp2⟩ := h
  obtain ⟨p, hp⟩ := (except_isOk_iff _).1 (fieldJoin_ok td "study_phase" hsp)
  obtain ⟨c, hc⟩ := (except_isOk_iff _).1 (fieldJoin_ok td "collaborators" hco)
  obtain ⟨cd, hcd2⟩ := (except_isOk_iff _).1 (fieldJoin_ok td "conditions" hcd)
  obtain ⟨iv, hiv⟩ := (except_isOk_iff _).1 (format_interventions_ok td hin)
  obtain ⟨oc, hoc⟩ := (except_isOk_iff _).1 (format_outcomes_ok td hp1 hp2)
  obtain ⟨fa, hfa2⟩ := (except_isOk_iff _).1 (fieldJoin_ok td "facility" hfa)
  rw [trialText, phaseJoin]
  simp [hp, hc, hcd2, hiv, hoc, hfa2, Bind.bind, Except.bind, Except.isOk, Except.toBool]

/-- Claim C5 (amended): `process_trial` never raises on a record whose
present fields are well-typed — in particular on a record missing any or
all fields — and then produces at least one Document, with the `"N/A"`
placeholder as `nct_id` metadata when the record has no identifier. It
does raise on a present-but-`None` list field (`TypeError` in `join`) or
on mismatched-length intervention lists (`IndexError`), so such a record
does abort a bulk ingestion batch (see the counterexample). -/
theorem process_trial_tolerates_missing_fields (td : TrialData)
    (h : wellFormedRecord td = true) :
    ∃ docs, process_trial td = Except.ok docs ∧ docs ≠ [] ∧
      (pyLookup td "nct_id" = Option.none →
        ∀ d ∈ docs, pyLookup d.metadata "nct_id" = Option.some NA) := by
  obtain ⟨text, ht⟩ := (except_isOk_iff _).1 (trialText_ok_of_wellformed td h)
  have hsp : fieldOk td "study_phase" = true := by
    rw [wellFormedRecord] at h
    simp only [Bool.and_eq_true] at h
    exact h.1.1.1.1.1.1
  obtain ⟨p, hp⟩ := (except_isOk_iff _).1 (fieldJoin_ok td "study_phase" hsp)
  have hp2 : phaseJoin td = Except.ok p := hp
  have hmap := mapM_ok_map (buildDoc td)
    (fun ic => Doc.mk ic.2 (mdList td p ic.1))
    (split_text text).enum (fun ic _ => buildDoc_ok hp2 ic)
  refine ⟨(split_text text).enum.map (fun ic => Doc.mk ic.2 (mdList td p ic.1)), ?_, ?_, ?_⟩
  · rw [process_trial, ht]
    simp only [Bind.bind, Except.bind, hmap]
  · intro hnil
    apply split_text_ne_nil text
    have hlen := congrArg List.length hnil
    simp only [List.length_map, List.enum_length, List.length_nil] at hlen
    exact List.length_eq_zero.1 hlen
  · intro hmiss d hd
    rw [List.mem_map] at hd
    obtain ⟨ic, _, rfl⟩ := hd
    have : pyGet td "nct_id" NA = NA := by
      rw [pyGet, hmiss]
    simp [mdList, pyLookup, List.lookup, this]

/-- Claim C5 counterexample: a record with two intervention names (and
no intervention types) raises `IndexError` in `_format_interventions`,
and a record whose `conditions` field is present but `None` raises
`TypeError` in `", ".join(...)` — in both cases `process_trial` raises
and produces no Documents, so one such record aborts a bulk batch. -/
theorem process_trial_raises_counterexample :
    (process_trial [("intervention_names",
      PyVal.list [PyVal.str "a", PyVal.str "b"])]).isOk = false ∧
    (process_trial [("conditions", PyVal.none)]).isOk = false := by
  constructor <;> decide

/-- Witness for C5: a record holding only a title (all other fields
missing) is processed without raising. -/
theorem process_trial_tolerates_missing_fields_witness :
    (process_trial [("title", PyVal.str "Aspirin Study")]).isOk = true := by
  obtain ⟨docs, hd, _, _⟩ := process_trial_tolerates_missing_fields
    [("title", PyVal.str "Aspirin Study")] (by decide)
  rw [hd]
  rfl

/-! ## C6: batch behavior of add_documents -/

theorem addBatches_firstFail (fail : Nat → Bool) :
    ∀ (b : Nat) (items col : List StoredEntry) (k : Nat),
      fail (k + b) = true → (∀ j < b, fail (k + j) = false) →
      addBatches fail col items k = col ++ items.take (5000 * b) := by
  intro b
  induction b with
  | zero =>
      intro items col k hb _
      have hk : fail k = true := by simpa using hb
      cases items with
      | nil => simp [addBatches]
      | cons x rest =>
          rw [addBatches, if_pos hk]
          simp
  | succ b ih =>
      intro items col k hb hprev
      have h0 : fail k = false := by simpa using hprev 0 (Nat.succ_pos b)
      cases items with
      | nil => simp [addBatches]
      | cons x rest =>
          rw [addBatches, if_neg (by simp [h0])]
          rw [ih ((x :: rest).drop 5000) (col ++ (x :: rest).take 5000) (k + 1)
            (by
              have : k + 1 + b = k + (b + 1) := by omega
              rw [this]
              exact hb)
            (by
              intro j hj
              have : k + 1 + j = k + (j + 1) := by omega
              rw [this]
              exact hprev (j + 1) (by omega))]
          rw [List.append_assoc]
          congr 1
          have : 5000 * (b + 1) = 5000 + 5000 * b := by ring
          rw [this, List.take_add]

/-- Claim C6 (amended): `add_documents` writes in batches of at most
5000; when the `b`-th batch is the first one whose external write fails,
the previously written batches stay in place (no rollback) and exactly
the first `5000 * b` prepared entries are in the collection — the
remaining batches of that call are never attempted (the failure aborts
the loop, contrary to the claim's "does not block subsequent batches";
the exception is logged by the `except` clause). -/
theorem add_documents_partial_batches (fail : Nat → Bool) (col : List StoredEntry)
    (docs : List Doc) (ts : String) (b : Nat)
    (hb : fail b = true) (hprev : ∀ j < b, fail j = false) :
    add_documents fail col docs ts = col ++ (prepareEntries docs ts).take (5000 * b) := by
  rw [add_documents]
  exact addBatches_firstFail fail b (prepareEntries docs ts) col 0
    (by simpa using hb) (fun j hj => by simpa using hprev j hj)

/-- Claim C6 counterexample: 5001 documents form two batches; when the
first batch fails, nothing at all is written — the second batch is never
attempted, refuting "the failure of one batch does not block the writing
of subsequent batches". -/
theorem add_documents_abort_counterexample :
    add_documents (fun b => b == 0) [] (List.replicate 5001 (Doc.mk "" []))
      "20240101_120000" = [] ∧
    (prepareEntries (List.replicate 5001 (Doc.mk "" [])) "20240101_120000").length = 5001 := by
  constructor
  · rw [add_documents]
    have h := addBatches_firstFail (fun b => b == 0) 0
      (prepareEntries (List.replicate 5001 (Doc.mk "" [])) "20240101_120000") [] 0
      (by decide) (by intro j hj; exact absurd hj (Nat.not_lt_zero j))
    rw [h, Nat.mul_zero, List.take_zero]
    rfl
  · rw [prepareEntries, List.length_map, List.length_zip, assignIds, List.length_map,
      List.length_range, List.length_replicate]
    exact Nat.min_self 5001

/-- Witness for C6: with 5001 documents and the second batch failing,
exactly the first batch of 5000 entries is written. -/
theorem add_documents_partial_batches_witness :
    add_documents (fun b => b == 1) [] (List.replicate 5001 (Doc.mk "" []))
      "20240101_120000"
      = [] ++ (prepareEntries (List.replicate 5001 (Doc.mk "" []))
          "20240101_120000").take (5000 * 1) :=
  add_documents_partial_batches (fun b => b == 1) [] _ _ 1 (by decide) (by decide)

/-! ## C7: id assignment of add_documents -/

/-- Value of a big-endian decimal digit string. -/
def decimalVal (cs : List Char) : Nat :=
  cs.foldl (fun a c => a * 10 + (c.toNat - 48)) 0

theorem decimalVal_append_singleton (cs : List Char) (c : Char) :
    decimalVal (cs ++ [c]) = decimalVal cs * 10 + (c.toNat - 48) := by
  simp [decimalVal, List.foldl_append]

theorem digitCh_toNat : ∀ d < 10, (digitCh d).toNat = 48 + d := by decide

theorem decimalVal_natDecimalAux : ∀ fuel n, n ≤ fuel →
    decimalVal (natDecimalAux fuel n) = n := by
  intro fuel
  induction fuel with
  | zero =>
      intro n h
      have : n = 0 := by omega
      subst this
      rfl
  | succ fuel ih =>
      intro n h
      rw [natDecimalAux]
      by_cases h0 : n = 0
      · subst h0
        rfl
      · rw [if_neg h0]
        have hdiv : n / 10 ≤ fuel := by omega
        rw [decimalVal_append_singleton, ih (n / 10) hdiv,
          digitCh_toNat (n % 10) (Nat.mod_lt _ (by omega))]
        omega

theorem asString_data (l : List Char) : (List.asString l).data = l := rfl

theorem string_ext (s t : String) (h : s.data = t.data) : s = t := by
  cases s
  cases t
  exact congrArg String.mk h

theorem natDecimal_inj : Function.Injective natDecimal := by
  intro a b h
  rw [natDecimal, natDecimal] at h
  by_cases ha : a = 0 <;> by_cases hb : b = 0
  · omega
  · rw [if_pos ha, if_neg hb] at h
    have hd := congrArg String.data h
    rw [asString_data] at hd
    have hv := congrArg decimalVal hd
    rw [decimalVal_natDecimalAux b b le_rfl] at hv
    have hz : decimalVal ("0" : String).data = 0 := rfl
    omega
  · rw [if_neg ha, if_pos hb] at h
    have hd := congrArg String.data h
    rw [asString_data] at hd
    have hv := congrArg decimalVal hd
    rw [decimalVal_natDecimalAux a a le_rfl] at hv
    have hz : decimalVal ("0" : String).data = 0 := rfl
    omega
  · rw [if_neg ha, if_neg hb] at h
    have hd := congrArg String.data h
    rw [asString_data, asString_data] at hd
    have hv := congrArg decimalVal hd
    rw [decimalVal_natDecimalAux a a le_rfl, decimalVal_natDecimalAux b b le_rfl] at hv
    exact hv

theorem mkDocId_inj (i j : Nat) (ts1 ts2 : String) (hlen : ts1.length = ts2.length)
    (h : mkDocId i ts1 = mkDocId j ts2) : i = j ∧ ts1 = ts2 := by
  have hd := congrArg String.data h
  simp only [mkDocId, String.data_append, List.append_assoc] at hd
  have hd2 := List.append_cancel_left hd
  have hlen2 : ((natDecimal i).data).length = ((natDecimal j).data).length := by
    have htot := congrArg List.length hd2
    simp only [List.length_append] at htot
    have hts : ts1.data.length = ts2.data.length := hlen
    omega
  obtain ⟨hdec, hrest⟩ := List.append_inj hd2 hlen2
  have hts : ts1 = ts2 := string_ext ts1 ts2 (List.append_cancel_left hrest)
  exact ⟨natDecimal_inj (string_ext (natDecimal i) (natDecimal j) hdec), hts⟩

/-- Claim C7 (amended): ids assigned within a single `add_documents`
call are pairwise distinct, and two ids from calls whose (equal-length,
second-resolution) timestamps are `ts1` and `ts2` coincide exactly when
both the position and the timestamp agree — so ids are unique across
calls only while no two calls share the formatted timestamp (the
counterexample shows two same-second calls colliding). Ids are assigned
once at write time and never rewritten (stability). -/
theorem doc_ids_unique_within_call (ts1 ts2 : String) (hlen : ts1.length = ts2.length) :
    (∀ i j, mkDocId i ts1 = mkDocId j ts2 → i = j ∧ ts1 = ts2) ∧
    ∀ n, (assignIds n ts1).Nodup := by
  constructor
  · exact fun i j h => mkDocId_inj i j ts1 ts2 hlen h
  · intro n
    rw [assignIds]
    refine List.Nodup.map ?_ (List.nodup_range n)
    intro i j h
    exact (mkDocId_inj i j ts1 ts1 rfl h).1

/-- Witness for C7: the three ids of one call are pairwise distinct. -/
theorem doc_ids_unique_within_call_witness :
    (assignIds 3 "20240101_120000").Nodup :=
  (doc_ids_unique_within_call "20240101_120000" "20240101_120000" rfl).2 3

theorem addBatches_noFail (fail : Nat → Bool) (hf : ∀ b, fail b = false) :
    ∀ (m : Nat) (items col : List StoredEntry) (k : Nat), items.length ≤ m →
      addBatches fail col items k = col ++ items := by
  intro m
  induction m with
  | zero =>
      intro items col k h
      have : items = [] := List.length_eq_zero.1 (by omega)
      subst this
      simp [addBatches]
  | succ m ih =>
      intro items col k h
      cases items with
      | nil => simp [addBatches]
      | cons x rest =>
          rw [addBatches, if_neg (by simp [hf k])]
          rw [ih ((x :: rest).drop 5000) (col ++ (x :: rest).take 5000) (k + 1)
            (by simp at h ⊢; omega)]
          rw [List.append_assoc, List.take_append_drop]

/-- Claim C7 counterexample: two `add_documents` calls made within the
same wall-clock second (equal `%Y%m%d_%H%M%S` timestamps) assign the
same id `doc_0_20240101_120000` to their first documents, so the
collection ends up with a duplicated id — ids are not unique across all
documents ever added. -/
theorem add_documents_id_collision_counterexample :
    (add_documents (fun _ => false)
        (add_documents (fun _ => false) [] [Doc.mk "c1" []] "20240101_120000")
        [Doc.mk "c2" []] "20240101_120000").map StoredEntry.id
      = [mkDocId 0 "20240101_120000", mkDocId 0 "20240101_120000"] ∧
    ¬ ((add_documents (fun _ => false)
        (add_documents (fun _ => false) [] [Doc.mk "c1" []] "20240101_120000")
        [Doc.mk "c2" []] "20240101_120000").map StoredEntry.id).Nodup := by
  have h1 : add_documents (fun _ => false) [] [Doc.mk "c1" []] "20240101_120000"
      = prepareEntries [Doc.mk "c1" []] "20240101_120000" := by
    rw [add_documents]
    simpa using addBatches_noFail (fun _ => false) (fun _ => rfl) 1
      (prepareEntries [Doc.mk "c1" []] "20240101_120000") [] 0 (by decide)
  have h2 : add_documents (fun _ => false)
      (prepareEntries [Doc.mk "c1" []] "20240101_120000")
      [Doc.mk "c2" []] "20240101_120000"
      = prepareEntries [Doc.mk "c1" []] "20240101_120000"
        ++ prepareEntries [Doc.mk "c2" []] "20240101_120000" := by
    rw [add_documents]
    exact addBatches_noFail (fun _ => false) (fun _ => rfl) 1
      (prepareEntries [Doc.mk "c2" []] "20240101_120000")
      (prepareEntries [Doc.mk "c1" []] "20240101_120000") 0 (by decide)
  rw [h1, h2]
  constructor
  · decide
  · decide

/-! ## C3: identifier short-circuit purity -/

/-- A document with the metadata shape `process_trial` emits (metadata
keys as in `mdList`; note `chunk_id`, not `chunk_index`). -/
def sampleChunk (nct : String) (i : Int) : Doc :=
  Doc.mk ("chunk " ++ toString i)
    [("nct_id", PyVal.str nct), ("title", NA), ("chunk_id", PyVal.int i),
     ("status", NA), ("phase", PyVal.str "N/A"), ("study_type", NA),
     ("organization", NA), ("sponsor", NA), ("last_update", NA)]

theorem sortByChunkIndex_mem (d : Doc) (docs : List Doc) :
    d ∈ sortByChunkIndex docs ↔ d ∈ docs := by
  rw [sortByChunkIndex]
  cases h : docs.mapM chunkIndexKey with
  | none => exact Iff.rfl
  | some ks => exact (List.perm_insertionSort _ docs).mem_iff

theorem sortByNctChunk_mem (d : Doc) (docs : List Doc) :
    d ∈ sortByNctChunk docs ↔ d ∈ docs := by
  rw [sortByNctChunk]
  cases h : docs.mapM nctChunkKey with
  | none => exact Iff.rfl
  | some ks => exact (List.perm_insertionSort _ docs).mem_iff

theorem matchesCriteria_single (k : String) (v : PyVal) (d : Doc) :
    matchesCriteria (Option.some [(k, v)]) d = (pyLookup d.metadata k == Option.some v) := by
  simp [matchesCriteria]

theorem nctCandidates_mem (store : List Doc) (query : String) (X : String) (d : Doc)
    (hd : d ∈ nctCandidates store query (PyVal.str X)) :
    d ∈ store ∧ pyLookup d.metadata "nct_id" = Option.some (PyVal.str X) := by
  rw [nctCandidates] at hd
  by_cases h1 : (similarity_search store query 50
      (Option.some [("nct_id", PyVal.str X)])).isEmpty = true
  · rw [if_pos h1] at hd
    rw [List.mem_filter] at hd
    obtain ⟨hmem, hpred⟩ := hd
    have hstore : d ∈ store := by
      rw [similarity_search] at hmem
      exact List.mem_of_mem_filter (List.take_subset _ _ hmem)
    have hget : pyGet d.metadata "nct_id" PyVal.none = PyVal.str X :=
      eq_of_beq hpred
    refine ⟨hstore, ?_⟩
    rw [pyGet] at hget
    cases hl : pyLookup d.metadata "nct_id" with
    | none => rw [hl] at hget; exact absurd hget (by simp)
    | some w => rw [hl] at hget; exact congrArg Option.some hget
  · rw [if_neg h1, similarity_search] at hd
    have hfil := List.take_subset 50 _ hd
    rw [List.mem_filter] at hfil
    obtain ⟨hstore, hpred⟩ := hfil
    rw [matchesCriteria_single] at hpred
    exact ⟨hstore, eq_of_beq hpred⟩

theorem getDocumentsForNctId_mem (store : List Doc) (query : String) (X : String) (d : Doc)
    (hd : d ∈ getDocumentsForNctId store query (PyVal.str X)) :
    d ∈ store ∧ pyLookup d.metadata "nct_id" = Option.some (PyVal.str X) := by
  rw [getDocumentsForNctId] at hd
  by_cases h1 : (nctCandidates store query (PyVal.str X)).isEmpty = true
  · rw [if_pos h1] at hd
    cases hd
  · rw [if_neg h1, sortByChunkIndex_mem] at hd
    exact nctCandidates_mem store query X d hd

theorem getDocumentsForNctId_empty (store : List Doc) (query : String) (X : String)
    (h : ∀ d ∈ store, pyLookup d.metadata "nct_id" ≠ Option.some (PyVal.str X)) :
    getDocumentsForNctId store query (PyVal.str X) = [] := by
  have hget : ∀ d ∈ store, pyGet d.metadata "nct_id" PyVal.none ≠ PyVal.str X := by
    intro d hd hq
    rw [pyGet] at hq
    cases hl : pyLookup d.metadata "nct_id" with
    | none => rw [hl] at hq; exact PyVal.noConfusion hq
    | some w => rw [hl] at hq; exact h d hd (hq ▸ hl)
  have hfil : store.filter (matchesCriteria (Option.some [("nct_id", PyVal.str X)])) = [] := by
    rw [List.filter_eq_nil_iff]
    intro d hd
    rw [matchesCriteria_single]
    intro hbeq
    exact h d hd (eq_of_beq hbeq)
  have hfb : (similarity_search store query 50 Option.none).filter
      (fun d => pyGet d.metadata "nct_id" PyVal.none == PyVal.str X) = [] := by
    rw [List.filter_eq_nil_iff]
    intro d hd
    have hstore : d ∈ store := by
      rw [similarity_search] at hd
      exact List.mem_of_mem_filter (List.take_subset _ _ hd)
    intro hbeq
    exact hget d hstore (eq_of_beq hbeq)
  have hrel : similarity_search store query 50
      (Option.some [("nct_id", PyVal.str X)]) = [] := by
    rw [similarity_search, hfil]
    rfl
  have hcand : nctCandidates store query (PyVal.str X) = [] := by
    rw [nctCandidates, hrel]
    simp [hfb]
  rw [getDocumentsForNctId, hcand]
  rfl

/-- Claim C3: for every query containing a well-formed trial identifier
(`NCT` followed by eight digits — `X` is the first regex match, the one
`get_response` uses), every Document returned by
`_get_documents_for_nct_id` comes from the store and carries metadata
`nct_id` equal to that identifier; and when no chunk of that trial
exists in the store the result is empty. Chunks of other trials are
never returned. -/
theorem identifier_short_circuit_purity (query X : String) (rest : List String)
    (store : List Doc) (hq : findNct query = X :: rest) :
    (∀ d ∈ getDocumentsForNctId store query (PyVal.str X),
      d ∈ store ∧ pyLookup d.metadata "nct_id" = Option.some (PyVal.str X)) ∧
    ((∀ d ∈ store, pyLookup d.metadata "nct_id" ≠ Option.some (PyVal.str X)) →
      getDocumentsForNctId store query (PyVal.str X) = []) :=
  ⟨fun d hd => getDocumentsForNctId_mem store query X d hd,
   fun h => getDocumentsForNctId_empty store query X h⟩

/-- Witness for C3: a two-trial store; the chunk of the queried trial is
returned from the store with the right identifier, and a store without
the trial yields `[]`. -/
theorem identifier_short_circuit_purity_witness :
    (sampleChunk "NCT00000001" 0 ∈ [sampleChunk "NCT00000001" 0, sampleChunk "NCT99999999" 0] ∧
      pyLookup (sampleChunk "NCT00000001" 0).metadata "nct_id"
        = Option.some (PyVal.str "NCT00000001")) ∧
    getDocumentsForNctId [sampleChunk "NCT99999999" 0] "What is NCT00000001?"
      (PyVal.str "NCT00000001") = [] :=
  ⟨(identifier_short_circuit_purity "What is NCT00000001?" "NCT00000001" []
      [sampleChunk "NCT00000001" 0, sampleChunk "NCT99999999" 0] (by decide)).1
      (sampleChunk "NCT00000001" 0) (by decide),
   (identifier_short_circuit_purity "What is NCT00000001?" "NCT00000001" []
      [sampleChunk "NCT99999999" 0] (by decide)).2 (by decide)⟩

/-! ## C9: chunk ordering of the identifier lookup -/

/-- The store of the C9 scenario: only the three chunks of one trial,
with the metadata shape `process_trial` actually emits, in retrieval
(similarity) order 1, 0, 2. -/
def c9store : List Doc :=
  [sampleChunk "NCT00000001" 1, sampleChunk "NCT00000001" 0, sampleChunk "NCT00000001" 2]

/-- Claim C9, evaluated at the failing input: the three chunks come back
in the retrieval order (chunk ids 1, 0, 2), not ordered 0, 1, 2 — the
sort key reads `metadata.get("chunk_index", 0)`, but `process_trial`
writes the key `chunk_id`, so every key is 0 and the stable sort
preserves the retrieval order. -/
theorem identifier_lookup_order_evaluation :
    (getDocumentsForNctId c9store "What is the status of NCT00000001?"
        (PyVal.str "NCT00000001")).map (fun d => pyLookup d.metadata "chunk_id")
      = [Option.some (PyVal.int 1), Option.some (PyVal.int 0), Option.some (PyVal.int 2)] ∧
    c9store.map chunkIndexKey = [Option.some 0, Option.some 0, Option.some 0] := by
  constructor
  · decide
  · decide

/-! ## C2: retrieval completeness of the general path -/

theorem getDocumentsForNctId_complete (store : List Doc) (query : String) (X : String)
    (d : Doc)
    (hcount : (store.filter (matchesCriteria
      (Option.some [("nct_id", PyVal.str X)]))).length ≤ 50)
    (hd : d ∈ store)
    (hdx : pyLookup d.metadata "nct_id" = Option.some (PyVal.str X)) :
    d ∈ getDocumentsForNctId store query (PyVal.str X) := by
  have hrel : similarity_search store query 50 (Option.some [("nct_id", PyVal.str X)])
      = store.filter (matchesCriteria (Option.some [("nct_id", PyVal.str X)])) := by
    rw [similarity_search]
    exact List.take_of_length_le hcount
  have hdmem : d ∈ similarity_search store query 50
      (Option.some [("nct_id", PyVal.str X)]) := by
    rw [hrel, List.mem_filter]
    refine ⟨hd, ?_⟩
    rw [matchesCriteria_single, hdx]
    simp
  have hne : (similarity_search store query 50
      (Option.some [("nct_id", PyVal.str X)])).isEmpty = false := by
    have hne' := List.ne_nil_of_mem hdmem
    cases hsim : similarity_search store query 50
        (Option.some [("nct_id", PyVal.str X)]) with
    | nil => exact absurd hsim hne'
    | cons a l => rfl
  have hcand : nctCandidates store query (PyVal.str X)
      = similarity_search store query 50 (Option.some [("nct_id", PyVal.str X)]) := by
    rw [nctCandidates, if_neg (by rw [hne]; simp)]
  rw [getDocumentsForNctId, hcand, if_neg (by rw [hne]; simp), sortByChunkIndex_mem]
  exact hdmem

/-- Claim C2 (amended): on the general path, if the discovery search
surfaces a document of trial `X` (with a truthy identifier) and the
store holds at most 50 chunks of `X`, then every chunk of `X` in the
store appears in the result of `_get_documents_for_query`. The bound is
forced by the `k = 50` cap of the per-trial fetch: a trial with more
than 50 chunks in the store yields a partial context (see the
counterexample). -/
theorem retrieval_completeness_amended (store : List Doc) (query : String) (d0 d : Doc)
    (X : String)
    (h0 : d0 ∈ similarity_search store query 5 Option.none)
    (hx0 : pyGet d0.metadata "nct_id" PyVal.none = PyVal.str X)
    (hne : X ≠ "")
    (hcount : (store.filter (matchesCriteria
      (Option.some [("nct_id", PyVal.str X)]))).length ≤ 50)
    (hd : d ∈ store)
    (hdx : pyLookup d.metadata "nct_id" = Option.some (PyVal.str X)) :
    d ∈ getDocumentsForQuery store query := by
  have hne0 : (similarity_search store query 5 Option.none).isEmpty = false := by
    have hne' := List.ne_nil_of_mem h0
    cases hsim : similarity_search store query 5 Option.none with
    | nil => exact absurd hsim hne'
    | cons a l => rfl
  rw [getDocumentsForQuery, if_neg (by rw [hne0]; simp)]
  rw [sortByNctChunk_mem, List.mem_flatMap]
  refine ⟨PyVal.str X, ?_, getDocumentsForNctId_complete store query X d hcount hd hdx⟩
  rw [extractNctIds, List.mem_dedup, List.mem_filterMap]
  refine ⟨d0, h0, ?_⟩
  simp only [hx0]
  simp [pyTruthy, hne]

/-- The counterexample store for C2: 51 chunks of a single trial. -/
def c2store : List Doc :=
  (List.range 51).map (fun i => sampleChunk "NCT00000001" (i : Int))

/-- Claim C2 counterexample: with 51 chunks of trial `NCT00000001` in
the store, the discovery search surfaces the trial but the per-trial
fetch is capped at `k = 50`, so the result misses a chunk that exists in
the store — a partial-trial context. -/
theorem retrieval_completeness_counterexample :
    sampleChunk "NCT00000001" 0 ∈ similarity_search c2store "anything" 5 Option.none ∧
    (c2store.filter (matchesCriteria
      (Option.some [("nct_id", PyVal.str "NCT00000001")]))).length = 51 ∧
    (getDocumentsForQuery c2store "anything").length = 50 ∧
    sampleChunk "NCT00000001" 50 ∈ c2store ∧
    sampleChunk "NCT00000001" 50 ∉ getDocumentsForQuery c2store "anything" := by
  refine ⟨?_, ?_, ?_, ?_, ?_⟩ <;> decide

/-- Witness for C2: a two-chunk trial is returned completely. -/
theorem retrieval_completeness_amended_witness :
    sampleChunk "NCT00000001" 1 ∈ getDocumentsForQuery
      [sampleChunk "NCT00000001" 0, sampleChunk "NCT00000001" 1] "some query" :=
  retrieval_completeness_amended
    [sampleChunk "NCT00000001" 0, sampleChunk "NCT00000001" 1] "some query"
    (sampleChunk "NCT00000001" 0) (sampleChunk "NCT00000001" 1) "NCT00000001"
    (by decide) (by decide) (by decide) (by decide) (by decide) (by decide)

/-! ## C4: verification bound / regeneration of get_response -/

/-- An oracle whose verification call (the second `generate_response`
call of a `get_response` invocation) reports a hallucination. -/
def c4llm : Nat → String → String → String :=
  fun n _ _ => if n == 1 then "HALLUCINATION_DETECTED" else "Sample answer."

/-- A freshly seeded stats record (`__init__` with model `mistral`). -/
def c4stats : UsageStats :=
  UsageStats.mk 0 0 [("mistral", 0)] "t0"

/-- Claim C4, evaluated at the failing input: when the verification
returns `HALLUCINATION_DETECTED`, `_verify_response` evaluates the
unbound name `prompt` (line 202) and raises `NameError`; the outer
`except` of `get_response` returns the generic apology after exactly 2
language-model calls, the stats are untouched, and no regenerated answer
is ever produced — the claim's third call (the one regeneration) is
unreachable. -/
theorem verification_regeneration_evaluation :
    get_response c4llm [sampleChunk "NCT00000001" 0] "mistral" c4stats
        "Tell me about NCT00000001"
      = ("I apologize, but I encountered an error while processing your query. Please try again.",
         c4stats, 2) := by
  decide

/-! ## C10: frame property of get_response on empty retrieval -/

theorem verify_response_snd (llm : Nat → String → String → String) (k : Nat)
    (r c : String) : (verify_response llm k r c).2 = k + 1 := by
  simp only [verify_response]
  split <;> rfl

theorem respond_calls (llm : Nat → String → String → String) (model_name : String)
    (stats : UsageStats) (query : String) (docs : List Doc) :
    (respond llm model_name stats query docs).2.2 = 2 := by
  simp only [respond]
  split
  all_goals
    rename_i err k2 heq
    have hk2 := congrArg Prod.snd heq
    rw [verify_response_snd] at hk2
    show k2 = 2
    omega

/-- Claim C10: when retrieval yields no documents — on the identifier
path or on the general path — `get_response` returns the corresponding
"couldn\x27t find" message, makes no language-model call, and leaves the
usage stats entirely unchanged; and whenever the returned stats differ
from the input stats, exactly 2 `generate_response` calls were made
(an answer was actually produced and verified). -/
theorem get_response_empty_retrieval_frame (llm : Nat → String → String → String)
    (store : List Doc) (model_name : String) (stats : UsageStats) (query : String) :
    (∀ nct rest, findNct query = nct :: rest →
      getDocumentsForNctId store query (PyVal.str nct) = [] →
      get_response llm store model_name stats query
        = ("I couldn\x27t find any clinical trial with " ++ nct ++ ".", stats, 0)) ∧
    (findNct query = [] → getDocumentsForQuery store query = [] →
      get_response llm store model_name stats query
        = ("I couldn\x27t find any relevant clinical trials for your query.", stats, 0)) ∧
    (∀ res st k, get_response llm store model_name stats query = (res, st, k) →
      st ≠ stats → k = 2) := by
  refine ⟨?_, ?_, ?_⟩
  · intro nct rest hq hempty
    rw [get_response, hq]
    simp [hempty]
  · intro hq hempty
    rw [get_response, hq]
    simp [hempty]
  · intro res st k h hne
    rw [get_response] at h
    cases hq : findNct query with
    | cons nct rest =>
        simp only [hq] at h
        by_cases he : (getDocumentsForNctId store query (PyVal.str nct)).isEmpty = true
        · rw [if_pos he] at h
          have hst := congrArg (fun t : String × UsageStats × Nat => t.2.1) h
          simp only at hst
          exact absurd hst.symm hne
        · rw [if_neg he] at h
          have hk := congrArg (fun t : String × UsageStats × Nat => t.2.2) h
          simp only at hk
          rw [respond_calls] at hk
          exact hk.symm
    | nil =>
        simp only [hq] at h
        by_cases he : (getDocumentsForQuery store query).isEmpty = true
        · rw [if_pos he] at h
          have hst := congrArg (fun t : String × UsageStats × Nat => t.2.1) h
          simp only at hst
          exact absurd hst.symm hne
        · rw [if_neg he] at h
          have hk := congrArg (fun t : String × UsageStats × Nat => t.2.2) h
          simp only at hk
          rw [respond_calls] at hk
          exact hk.symm

/-- Witness for C10: an empty store; both the identifier path and the
general path return their "couldn\x27t find" messages with untouched
stats and zero model calls. -/
theorem get_response_empty_retrieval_frame_witness :
    get_response c4llm [] "mistral" c4stats "Tell me about NCT00000001"
      = ("I couldn\x27t find any clinical trial with NCT00000001.", c4stats, 0) ∧
    get_response c4llm [] "mistral" c4stats "an unrelated question"
      = ("I couldn\x27t find any relevant clinical trials for your query.", c4stats, 0) :=
  ⟨(get_response_empty_retrieval_frame c4llm [] "mistral" c4stats
      "Tell me about NCT00000001").1 "NCT00000001" [] (by decide) (by decide),
   (get_response_empty_retrieval_frame c4llm [] "mistral" c4stats
      "an unrelated question").2.1 (by decide) (by decide)⟩

end ClinicalRAG
